import Mathlib

/-!
Verification development for the infoextract-cidoc entity/relationship
resolution pipeline and validation layer.

The definitions below are shallow embeddings of the Python modules
`infoextract_cidoc/extraction/lite_schema.py`,
`infoextract_cidoc/extraction/resolution.py`,
`infoextract_cidoc/validators/quantifiers.py` and
`infoextract_cidoc/validators/typing_rules.py`.

Modelling conventions:
* Python dicts are association lists with insertion order, unique keys,
  and replace-in-place assignment (`pyGet` / `pySet`).
* Python floats that are only copied, never computed with (the
  `confidence` fields), are modelled as rationals.
* `dict[str, Any]` attribute payloads are modelled as string-valued
  association lists: the pipeline only passes them through or reads
  string-valued subtype defaults from them.
* `uuid.uuid5 ns name` is modelled as the pair `(ns, name)`: uuid5 is a
  deterministic function of its arguments, and equal inputs give equal
  UUIDs.  Collisions between distinct name strings (SHA-1 collisions)
  are not modelled; collisions caused by equal name strings (for
  example the ":" ambiguity in "ref_id:label") are represented exactly.
* Exceptions are explicit `PyExc` values; `logging` calls and
  `warnings.warn` calls are explicit message lists.
-/

namespace InfoExtract

/-- Python dict lookup: returns the value bound to `k`, if any.
Keys in a Python dict are unique, so first match suffices. -/
def pyGet {α : Type} (d : List (String × α)) (k : String) : Option α :=
  match d with
  | [] => none
  | (k', v) :: rest => if k = k' then some v else pyGet rest k

/-- Python dict assignment `d[k] = v`: replaces an existing binding in
place (keeping its position) or appends a new one. -/
def pySet {α : Type} (d : List (String × α)) (k : String) (v : α) : List (String × α) :=
  match d with
  | [] => [(k, v)]
  | (k', v') :: rest => if k = k' then (k', v) :: rest else (k', v') :: pySet rest k v

/-- Model of a `uuid.UUID` value produced by `uuid.uuid5(ns, name)`. -/
structure PyUUID where
  ns : String
  name : String
  deriving DecidableEq

/-- resolution.py: `_EXTRACTION_NAMESPACE`, the stable namespace for UUID5
generation. -/
def _EXTRACTION_NAMESPACE : String := "6ba7b810-9dad-11d1-80b4-00c04fd430c8"

/-- resolution.py: `_stable_uuid(ref_id, label)` generates
`uuid5(_EXTRACTION_NAMESPACE, f"{ref_id}:{label}")`. -/
def _stable_uuid (ref_id label : String) : PyUUID :=
  ⟨_EXTRACTION_NAMESPACE, ref_id ++ ":" ++ label⟩

/-- lite_schema.py: `LiteEntity`. -/
structure LiteEntity where
  ref_id : String
  entity_type : String
  label : String
  description : Option String := none
  confidence : Rat := 1
  source_snippet : Option String := none
  attributes : List (String × String) := []
  deriving DecidableEq

/-- lite_schema.py: `LiteRelationship`.  NOTE: faithful to the source,
this record has NO `source_snippet` field (the spec and the repository's
own tests expect one; see `LiteRelationshipFixed`). -/
structure LiteRelationship where
  source_ref : String
  target_ref : String
  property_code : String
  property_label : String
  confidence : Rat := 1
  deriving DecidableEq

/-- Modelled from the spec: the spec's LiteRelationship carries an
optional `source_snippet` provenance field, which `resolution.py` reads
and the repository's tests construct, but which is missing from
`lite_schema.LiteRelationship`.  This variant restores the field. -/
structure LiteRelationshipFixed extends LiteRelationship where
  source_snippet : Option String := none
  deriving DecidableEq

/-- lite_schema.py: `LiteExtractionResult`. -/
structure LiteExtractionResult where
  entities : List LiteEntity := []
  relationships : List LiteRelationship := []
  overall_confidence : Rat := 1
  deriving DecidableEq

/-- `LiteExtractionResult` with the spec-modelled relationship records. -/
structure LiteExtractionResultFixed where
  entities : List LiteEntity := []
  relationships : List LiteRelationshipFixed := []
  overall_confidence : Rat := 1
  deriving DecidableEq

/-- extraction/models.py: `ExtractedEntity` and its subclasses, collapsed
into one record.  `subtype_fields` holds the subclass-specific required
fields (`event_type`, `place_type`, `object_type`, `time_type`) with
their resolved values; the base class has none.  The random
`default_factory=uuid4` for `id` is never used by the resolution
pipeline (it always passes `id` explicitly). -/
structure ExtractedEntity where
  id : PyUUID
  class_code : String
  label : String
  description : Option String
  confidence : Rat
  source_text : Option String
  properties : List (String × String)
  subtype_fields : List (String × String)
  deriving DecidableEq

/-- extraction/models.py: `ExtractedRelationship`.  The `id` field
(`default_factory=uuid4`, a fresh random value per construction) is
outside the deterministic fragment and not mentioned by any claim, so it
is omitted here. -/
structure ExtractedRelationship where
  source_id : PyUUID
  target_id : PyUUID
  property_code : String
  property_label : String
  confidence : Rat
  source_text : Option String
  deriving DecidableEq

/-- extraction/models.py: `ExtractionResult`. -/
structure ExtractionResult where
  entities : List ExtractedEntity
  relationships : List ExtractedRelationship
  deriving DecidableEq

/-- resolution.py: `_ENTITY_TYPE_MAP`, restricted to the class codes
(the subclass constructors are folded into `_SUBCLASS_DEFAULTS`). -/
def _ENTITY_TYPE_MAP : List (String × String) :=
  [("Person", "E21"), ("Event", "E5"), ("Place", "E53"), ("Object", "E22"),
   ("TimeSpan", "E52")]

/-- resolution.py: `_SUBCLASS_DEFAULTS`, keyed here by the entity_type
string that selects the subclass in `_ENTITY_TYPE_MAP` (the two source
maps are keyed consistently: Person/PersonExtraction has no defaults). -/
def _SUBCLASS_DEFAULTS : List (String × List (String × String)) :=
  [("Event", [("event_type", "unknown")]),
   ("Place", [("place_type", "unknown")]),
   ("Object", [("object_type", "unknown")]),
   ("TimeSpan", [("time_type", "unknown")])]

/-- resolution.py: `_make_extracted_entity(lite)`. -/
def _make_extracted_entity (lite : LiteEntity) : ExtractedEntity :=
  let class_code := (pyGet _ENTITY_TYPE_MAP lite.entity_type).getD "E55"
  let defaults := (pyGet _SUBCLASS_DEFAULTS lite.entity_type).getD []
  { id := _stable_uuid lite.ref_id lite.label
    class_code := class_code
    label := lite.label
    description := lite.description
    confidence := lite.confidence
    source_text := lite.source_snippet
    properties := lite.attributes
    subtype_fields :=
      defaults.map (fun fd => (fd.1, (pyGet lite.attributes fd.1).getD fd.2)) }

/-- resolution.py: `EntityRegistry` state (`_by_ref_id`, `_by_label`). -/
structure EntityRegistry where
  by_ref_id : List (String × ExtractedEntity) := []
  by_label : List (String × ExtractedEntity) := []
  deriving DecidableEq

/-- resolution.py: `EntityRegistry.register(lite)`, returning the updated
registry together with the returned entity. -/
def register (reg : EntityRegistry) (lite : LiteEntity) :
    EntityRegistry × ExtractedEntity :=
  match pyGet reg.by_label lite.label with
  | some existing =>
      ({ reg with by_ref_id := pySet reg.by_ref_id lite.ref_id existing }, existing)
  | none =>
      let entity := _make_extracted_entity lite
      ({ by_ref_id := pySet reg.by_ref_id lite.ref_id entity
         by_label := pySet reg.by_label lite.label entity }, entity)

/-- resolution.py: `EntityRegistry.resolve(ref_id)`. -/
def resolve (reg : EntityRegistry) (ref_id : String) : Option ExtractedEntity :=
  pyGet reg.by_ref_id ref_id

/-- resolution.py: the loop body of the `entities` property — iterate the
values, skipping entities whose `id` was already seen. -/
def entitiesFrom (seen : List PyUUID) : List ExtractedEntity → List ExtractedEntity
  | [] => []
  | e :: rest =>
      if e.id ∈ seen then entitiesFrom seen rest
      else e :: entitiesFrom (e.id :: seen) rest

/-- resolution.py: the `EntityRegistry.entities` property — all unique
registered entities, deduplicated by `id` over `_by_label.values()`. -/
def registryEntities (reg : EntityRegistry) : List ExtractedEntity :=
  entitiesFrom [] (reg.by_label.map Prod.snd)

/-- Stage A of `resolve_extraction`: register every lite entity in input
order, starting from a fresh registry. -/
def regOf (lites : List LiteEntity) : EntityRegistry :=
  lites.foldl (fun r le => (register r le).1) {}

/-- `logger.warning` messages emitted by Stage B, naming the unresolved
ref and which side of the relationship it was. -/
inductive LogMsg
  | brokenSource (ref : String)
  | brokenTarget (ref : String)
  deriving DecidableEq

/-- Python exceptions observable in the embedded fragment. -/
inductive PyExc
  | attrError (msg : String)
  | crmError (msg : String)
  | valueError (msg : String)
  deriving DecidableEq

/-- Stage B of `resolve_extraction`, faithful to the source: for each
lite relationship resolve both endpoints; a missing endpoint logs a
warning and skips the relationship; when both endpoints resolve, the
source constructs `ExtractedRelationship(..., source_text=lite_rel.source_snippet)`
— but `lite_schema.LiteRelationship` declares no `source_snippet` field,
so this attribute access raises `AttributeError` (the repository's own
test `test_relationship_source_text_propagates` expects the field to
exist and propagate). -/
def stageB (reg : EntityRegistry) :
    List LiteRelationship → List LogMsg × Except PyExc (List ExtractedRelationship)
  | [] => ([], .ok [])
  | r :: rest =>
    match resolve reg r.source_ref with
    | none =>
        let out := stageB reg rest
        (.brokenSource r.source_ref :: out.1, out.2)
    | some _ =>
      match resolve reg r.target_ref with
      | none =>
          let out := stageB reg rest
          (.brokenTarget r.target_ref :: out.1, out.2)
      | some _ =>
          ([], .error (.attrError
            "LiteRelationship object has no attribute source_snippet"))

/-- resolution.py: `resolve_extraction(lite_result)`, faithful to the
source.  Returns the Stage B log messages together with either the
`ExtractionResult` or the exception that escaped. -/
def resolve_extraction (lr : LiteExtractionResult) :
    List LogMsg × Except PyExc ExtractionResult :=
  let reg := regOf lr.entities
  let ents := registryEntities reg
  let out := stageB reg lr.relationships
  (out.1, out.2.map (fun rels => ⟨ents, rels⟩))

/-- The relationship constructed by Stage B when both endpoints resolve
(spec-modelled variant, with the `source_snippet` field restored). -/
def mkRelFixed (s t : ExtractedEntity) (r : LiteRelationshipFixed) :
    ExtractedRelationship :=
  { source_id := s.id
    target_id := t.id
    property_code := r.property_code
    property_label := r.property_label
    confidence := r.confidence
    source_text := r.source_snippet }

/-- Modelled from the spec: Stage B over the spec's LiteRelationship
(with `source_snippet` present, as `resolution.py` and the repository's
tests require); identical to `stageB` except that the relationship
construction succeeds and copies `source_snippet` into `source_text`. -/
def stageBFixed (reg : EntityRegistry) :
    List LiteRelationshipFixed → List LogMsg × List ExtractedRelationship
  | [] => ([], [])
  | r :: rest =>
    match resolve reg r.source_ref with
    | none =>
        let out := stageBFixed reg rest
        (.brokenSource r.source_ref :: out.1, out.2)
    | some s =>
      match resolve reg r.target_ref with
      | none =>
          let out := stageBFixed reg rest
          (.brokenTarget r.target_ref :: out.1, out.2)
      | some t =>
          let out := stageBFixed reg rest
          (out.1, mkRelFixed s t r :: out.2)

/-- Modelled from the spec: `resolve_extraction` over the spec's
LiteRelationship (with `source_snippet` restored). -/
def resolve_extraction_fixed (lr : LiteExtractionResultFixed) :
    List LogMsg × ExtractionResult :=
  let reg := regOf lr.entities
  let out := stageBFixed reg lr.relationships
  (out.1, ⟨registryEntities reg, out.2⟩)

/-! ## Validation layer (validators/quantifiers.py, validators/typing_rules.py)

The generated Schema Registry module `infoextract_cidoc/properties.py`
(the `P` and `DOMAIN` dicts, produced by `codegen/generate_properties.py`
from a LinkML schema) is not part of the source tree.  Modelled from the
spec: a property entry carries {label, domain class, range class,
inverse code, quantifier, aliases, notes}; the validators consult only
`domain`, `range` and `quantifier`.  Both tables are passed as explicit
parameters to the validator functions. -/

/-- Modelled from the spec: one entry of the generated `P` dict
(`PropertyDefinition{code, label, domain_class, range_class,
inverse_code, quantifier, aliases, notes}`); only the fields the
validators read are kept. -/
structure PropInfo where
  plabel : String := ""
  domain : String
  range : String
  inverse : String := ""
  quantifier : String
  deriving DecidableEq

/-- Modelled from the spec: the generated `P` dict, property code to
property definition. -/
abbrev PTable := List (String × PropInfo)

/-- Modelled from the spec: the generated `DOMAIN` dict, class code to
the list of property codes declared with that domain. -/
abbrev DomainTable := List (String × List String)

/-- quantifiers.py: `ValidationSeverity` (warn / raise / ignore). -/
inductive ValidationSeverity
  | warn
  | raiseSeverity
  | ignore
  deriving DecidableEq

/-- A Python attribute value as seen by the duck-typed validator helpers
(`getattr` results): `None`, a scalar, or a list. -/
inductive AttrVal
  | pynone
  | scalar (s : String)
  | plist (xs : List String)
  deriving DecidableEq

/-- models/base.py: `CRMEntity` as consumed by the validators: an id
(only ever formatted into messages or used as a dict key, so kept as a
string), a class code, and the duck-typed fields reachable through
`hasattr`/`getattr` (absent key = `hasattr` false). -/
structure CRMEntity where
  id : String
  class_code : String
  attrs : List (String × AttrVal) := []
  deriving DecidableEq

/-- Outcome of a validator call: the exception that escaped, if any,
plus the `warnings.warn` messages emitted. -/
structure VOutcome where
  raised : Option PyExc
  warnings : List String
  deriving DecidableEq

/-- Python `s.split("..")` on the character list of `s`: non-overlapping
occurrences, scanned left to right. -/
def _splitOnDotsAux (acc : List Char) : List Char → List (List Char)
  | [] => [acc.reverse]
  | '.' :: '.' :: rest => acc.reverse :: _splitOnDotsAux [] rest
  | c :: rest => _splitOnDotsAux (c :: acc) rest

/-- Digit accumulator for `int()`. -/
def _digitsVal (acc : Nat) : List Char → Option Nat
  | [] => some acc
  | c :: rest =>
      if c.isDigit then _digitsVal (acc * 10 + (c.toNat - 48)) rest else none

/-- Python `int(s)` on the integer literals that quantifier bounds use
(an optional minus sign followed by decimal digits). -/
def _parseIntChars : List Char → Option Int
  | [] => none
  | '-' :: rest =>
      if rest = [] then none else (_digitsVal 0 rest).map (fun n => -(n : Int))
  | cs => (_digitsVal 0 cs).map (fun n => (n : Int))

/-- quantifiers.py: `_parse_quantifier(quantifier)`.  Raises `ValueError`
when the `".."` separator is missing, when the split does not unpack
into exactly two parts, or when a bound is not an integer. -/
def _parse_quantifier (q : String) : Except String (Int × Option Int) :=
  match _splitOnDotsAux [] q.toList with
  | [_] => .error ("Invalid quantifier format: " ++ q)
  | [minp, maxp] =>
    match _parseIntChars minp with
    | none => .error ("invalid literal for int: " ++ String.mk minp)
    | some minc =>
      if maxp = ['*'] then .ok (minc, none)
      else
        match _parseIntChars maxp with
        | none => .error ("invalid literal for int: " ++ String.mk maxp)
        | some maxc => .ok (minc, some maxc)
  | _ => .error "too many values to unpack (expected 2)"

/-- quantifiers.py: `_handle_violation(message, severity, entity)`:
raise `CRMValidationError` on raise, emit one catchable warning on warn,
do nothing on ignore. -/
def _handle_violation (message : String) (severity : ValidationSeverity)
    (entity : CRMEntity) : VOutcome :=
  let full := message ++ " (Entity: " ++ entity.id ++ ", Class: " ++
    entity.class_code ++ ")"
  match severity with
  | .raiseSeverity => ⟨some (.crmError full), []⟩
  | .warn => ⟨none, [full]⟩
  | .ignore => ⟨none, []⟩

/-- quantifiers.py: `enforce_quantifier(entity, p_code, values, severity)`.
The `P` table is the explicit parameter standing for the generated
module-level dict. -/
def enforce_quantifier (P : PTable) (entity : CRMEntity) (p_code : String)
    (values : List String) (severity : ValidationSeverity) : VOutcome :=
  if severity = .ignore then ⟨none, []⟩ else
  match pyGet P p_code with
  | none => ⟨none, []⟩
  | some info =>
    if entity.class_code ≠ info.domain then ⟨none, []⟩ else
    match _parse_quantifier info.quantifier with
    | .error m => ⟨some (.valueError m), []⟩
    | .ok mm =>
      let actual : Int := (values.length : Int)
      let first : VOutcome :=
        if actual < mm.1 then
          _handle_violation ("Property " ++ p_code ++ " requires at least " ++
            toString mm.1 ++ " values, got " ++ toString actual) severity entity
        else ⟨none, []⟩
      match first.raised with
      | some e => ⟨some e, first.warnings⟩
      | none =>
        let second : VOutcome :=
          match mm.2 with
          | some maxc =>
            if actual > maxc then
              _handle_violation ("Property " ++ p_code ++ " allows at most " ++
                toString maxc ++ " values, got " ++ toString actual) severity entity
            else ⟨none, []⟩
          | none => ⟨none, []⟩
        ⟨second.raised, first.warnings ++ second.warnings⟩

/-- quantifiers.py / typing_rules.py: the `p_to_field` map from P-codes
to entity field names (both modules declare the identical literal). -/
def p_to_field : List (String × String) :=
  [("P1", "identifiers"), ("P2", "type"), ("P3", "notes"), ("P4", "timespan"),
   ("P7", "took_place_at"), ("P11", "participants"), ("P53", "current_location"),
   ("P79", "begin_of_the_begin"), ("P80", "end_of_the_end"), ("P108", "produced_by")]

/-- quantifiers.py: `_get_property_values(entity, p_code)`. -/
def _get_property_values (entity : CRMEntity) (p_code : String) : List String :=
  match pyGet p_to_field p_code with
  | none => []
  | some field_name =>
    match pyGet entity.attrs field_name with
    | none => []
    | some .pynone => []
    | some (.plist xs) => xs
    | some (.scalar s) => [s]

/-- quantifiers.py: the loop body of `validate_entity_quantifiers` for
one property code — the messages its try/except appends.  Messages come
only from exceptions that `enforce_quantifier` raises:
`CRMValidationError` via the dedicated handler, anything else (for
example the `ValueError` from a malformed quantifier) via the generic
`except Exception` handler.  `warnings.warn` does not raise, so
warn-severity violations contribute no message. -/
def quantEntityMsg (P : PTable) (entity : CRMEntity)
    (severity : ValidationSeverity) (p_code : String) : List String :=
  match (enforce_quantifier P entity p_code
      (_get_property_values entity p_code) severity).raised with
  | some (.crmError m) => [m]
  | some (.valueError m) => ["Error validating property " ++ p_code ++ ": " ++ m]
  | some (.attrError m) => ["Error validating property " ++ p_code ++ ": " ++ m]
  | none => []

/-- quantifiers.py: `validate_entity_quantifiers(entity, severity)` —
fold the per-property message collection over the applicable
properties. -/
def validate_entity_quantifiers (P : PTable) (D : DomainTable)
    (entity : CRMEntity) (severity : ValidationSeverity) : List String :=
  ((pyGet D entity.class_code).getD []).foldl
    (fun msgs p_code => msgs ++ quantEntityMsg P entity severity p_code) []

/-- quantifiers.py: `validate_batch_quantifiers(entities, severity)`:
a dict from entity id to that entity's messages, adding an entry only
when the message list is nonempty. -/
def validate_batch_quantifiers (P : PTable) (D : DomainTable)
    (entities : List CRMEntity) (severity : ValidationSeverity) :
    List (String × List String) :=
  entities.foldl
    (fun results e =>
      if validate_entity_quantifiers P D e severity = [] then results
      else pySet results e.id (validate_entity_quantifiers P D e severity))
    []


/-- typing_rules.py: the hard-coded `inheritance_map` in
`_is_class_compatible` (class code to its CRM ancestor chain). -/
def inheritance_map : List (String × List String) :=
  [("E2", ["E1"]),
  ("E3", ["E2", "E1"]),
  ("E4", ["E2", "E1"]),
  ("E5", ["E2", "E1"]),
  ("E6", ["E5", "E2", "E1"]),
  ("E7", ["E5", "E2", "E1"]),
  ("E8", ["E7", "E5", "E2", "E1"]),
  ("E9", ["E7", "E5", "E2", "E1"]),
  ("E10", ["E7", "E5", "E2", "E1"]),
  ("E11", ["E7", "E5", "E2", "E1"]),
  ("E12", ["E7", "E5", "E2", "E1"]),
  ("E13", ["E7", "E5", "E2", "E1"]),
  ("E14", ["E13", "E7", "E5", "E2", "E1"]),
  ("E15", ["E13", "E7", "E5", "E2", "E1"]),
  ("E16", ["E13", "E7", "E5", "E2", "E1"]),
  ("E17", ["E13", "E7", "E5", "E2", "E1"]),
  ("E18", ["E1"]),
  ("E19", ["E18", "E1"]),
  ("E20", ["E19", "E18", "E1"]),
  ("E21", ["E20", "E19", "E18", "E1"]),
  ("E22", ["E19", "E18", "E1"]),
  ("E23", ["E1"]),
  ("E24", ["E18", "E1"]),
  ("E25", ["E24", "E18", "E1"]),
  ("E26", ["E18", "E1"]),
  ("E27", ["E26", "E18", "E1"]),
  ("E28", ["E23", "E1"]),
  ("E29", ["E28", "E23", "E1"]),
  ("E30", ["E28", "E23", "E1"]),
  ("E31", ["E28", "E23", "E1"]),
  ("E32", ["E31", "E28", "E23", "E1"]),
  ("E33", ["E28", "E23", "E1"]),
  ("E34", ["E33", "E28", "E23", "E1"]),
  ("E35", ["E33", "E28", "E23", "E1"]),
  ("E36", ["E28", "E23", "E1"]),
  ("E37", ["E36", "E28", "E23", "E1"]),
  ("E38", ["E36", "E28", "E23", "E1"]),
  ("E39", ["E1"]),
  ("E40", ["E39", "E1"]),
  ("E41", ["E28", "E23", "E1"]),
  ("E42", ["E28", "E23", "E1"]),
  ("E43", ["E1"]),
  ("E44", ["E41", "E28", "E23", "E1"]),
  ("E45", ["E44", "E41", "E28", "E23", "E1"]),
  ("E46", ["E43", "E1"]),
  ("E47", ["E28", "E23", "E1"]),
  ("E48", ["E44", "E41", "E28", "E23", "E1"]),
  ("E49", ["E41", "E28", "E23", "E1"]),
  ("E50", ["E49", "E41", "E28", "E23", "E1"]),
  ("E51", ["E45", "E44", "E41", "E28", "E23", "E1"]),
  ("E52", ["E1"]),
  ("E53", ["E43", "E1"]),
  ("E54", ["E28", "E23", "E1"]),
  ("E55", ["E28", "E23", "E1"]),
  ("E56", ["E55", "E28", "E23", "E1"]),
  ("E57", ["E55", "E28", "E23", "E1"]),
  ("E58", ["E55", "E28", "E23", "E1"]),
  ("E59", ["E1"]),
  ("E60", ["E59", "E1"]),
  ("E61", ["E59", "E1"]),
  ("E62", ["E59", "E1"]),
  ("E63", ["E5", "E2", "E1"]),
  ("E64", ["E5", "E2", "E1"]),
  ("E65", ["E63", "E5", "E2", "E1"]),
  ("E66", ["E63", "E5", "E2", "E1"]),
  ("E67", ["E66", "E63", "E5", "E2", "E1"]),
  ("E68", ["E64", "E5", "E2", "E1"]),
  ("E69", ["E64", "E5", "E2", "E1"]),
  ("E70", ["E1"]),
  ("E71", ["E70", "E1"]),
  ("E72", ["E70", "E1"]),
  ("E73", ["E70", "E1"]),
  ("E74", ["E39", "E1"]),
  ("E75", ["E41", "E28", "E23", "E1"]),
  ("E76", ["E42", "E28", "E23", "E1"]),
  ("E77", ["E1"]),
  ("E78", ["E77", "E1"]),
  ("E79", ["E11", "E7", "E5", "E2", "E1"]),
  ("E80", ["E11", "E7", "E5", "E2", "E1"]),
  ("E81", ["E11", "E7", "E5", "E2", "E1"]),
  ("E82", ["E75", "E41", "E28", "E23", "E1"]),
  ("E83", ["E65", "E63", "E5", "E2", "E1"]),
  ("E84", ["E73", "E70", "E1"]),
  ("E85", ["E7", "E5", "E2", "E1"]),
  ("E86", ["E7", "E5", "E2", "E1"]),
  ("E87", ["E7", "E5", "E2", "E1"]),
  ("E88", ["E28", "E23", "E1"]),
  ("E89", ["E88", "E28", "E23", "E1"]),
  ("E90", ["E28", "E23", "E1"]),
  ("E91", ["E90", "E28", "E23", "E1"]),
  ("E92", ["E1"]),
  ("E93", ["E92", "E1"]),
  ("E94", ["E92", "E1"]),
  ("E95", ["E59", "E1"]),
  ("E96", ["E92", "E1"]),
  ("E97", ["E28", "E23", "E1"]),
  ("E98", ["E55", "E28", "E23", "E1"]),
  ("E99", ["E55", "E28", "E23", "E1"])]

/-- typing_rules.py: `_is_class_compatible(entity_class, expected_class)`:
direct match, or `expected_class` occurs in the entity class's ancestor
chain. -/
def _is_class_compatible (entity_class expected_class : String) : Bool :=
  if entity_class = expected_class then true
  else ((pyGet inheritance_map entity_class).getD []).contains expected_class

/-- typing_rules.py: `_handle_violation(message, severity, source, target, p_code)`
(the typing-rules variant, which appends property/source/target info). -/
def _handle_violation_typing (message : String) (severity : ValidationSeverity)
    (source target : CRMEntity) (p_code : String) : VOutcome :=
  let full := message ++ " (Property: " ++ p_code ++ ", Source: " ++ source.id ++
    ", Target: " ++ target.id ++ ")"
  match severity with
  | .raiseSeverity => ⟨some (.crmError full), []⟩
  | .warn => ⟨none, [full]⟩
  | .ignore => ⟨none, []⟩

/-- typing_rules.py: `validate_domain_range_alignment(source, target, p_code, severity)`.
Checks domain then range; under raise severity the first violation
raises, so the range check is not reached. -/
def validate_domain_range_alignment (P : PTable) (source target : CRMEntity)
    (p_code : String) (severity : ValidationSeverity) : VOutcome :=
  if severity = .ignore then ⟨none, []⟩ else
  match pyGet P p_code with
  | none => ⟨none, []⟩
  | some info =>
    let first : VOutcome :=
      if ¬ _is_class_compatible source.class_code info.domain then
        _handle_violation_typing ("Entity " ++ source.id ++ " (class " ++
          source.class_code ++ ") does not match domain " ++ info.domain ++
          " for property " ++ p_code) severity source target p_code
      else ⟨none, []⟩
    match first.raised with
    | some e => ⟨some e, first.warnings⟩
    | none =>
      let second : VOutcome :=
        if ¬ _is_class_compatible target.class_code info.range then
          _handle_violation_typing ("Entity " ++ target.id ++ " (class " ++
            target.class_code ++ ") does not match range " ++ info.range ++
            " for property " ++ p_code) severity source target p_code
        else ⟨none, []⟩
      ⟨second.raised, first.warnings ++ second.warnings⟩

/-- typing_rules.py: `_get_property_target_ids(entity, p_code)` — the
same field lookup as `_get_property_values`, with `str()` applied to
each value (identity on the string-valued model). -/
def _get_property_target_ids (entity : CRMEntity) (p_code : String) : List String :=
  match pyGet p_to_field p_code with
  | none => []
  | some field_name =>
    match pyGet entity.attrs field_name with
    | none => []
    | some .pynone => []
    | some (.plist xs) => xs
    | some (.scalar s) => [s]

/-- typing_rules.py: the inner target loop of `validate_entity_typing`
for one property code: targets missing from the lookup are logged and
skipped; the first raised `CRMValidationError` aborts the remaining
targets for this property and is reported as a message. -/
def _typing_targets (P : PTable) (entity : CRMEntity)
    (lookup : List (String × CRMEntity)) (severity : ValidationSeverity)
    (p_code : String) : List String → Option String
  | [] => none
  | tid :: rest =>
    match pyGet lookup tid with
    | none => _typing_targets P entity lookup severity p_code rest
    | some target =>
      match (validate_domain_range_alignment P entity target p_code severity).raised with
      | some (.crmError m) => some m
      | some (.valueError m) => some m
      | some (.attrError m) => some m
      | none => _typing_targets P entity lookup severity p_code rest

/-- typing_rules.py: the loop body of `validate_entity_typing` for one
property code — the messages its try/except appends (empty when nothing
was raised for any target of that property). -/
def typingEntityMsg (P : PTable) (entity : CRMEntity)
    (lookup : List (String × CRMEntity)) (severity : ValidationSeverity)
    (p_code : String) : List String :=
  match _typing_targets P entity lookup severity p_code
      (_get_property_target_ids entity p_code) with
  | some m => [m]
  | none => []

/-- typing_rules.py: `validate_entity_typing(entity, entity_lookup, severity)`. -/
def validate_entity_typing (P : PTable) (D : DomainTable) (entity : CRMEntity)
    (lookup : List (String × CRMEntity)) (severity : ValidationSeverity) :
    List String :=
  ((pyGet D entity.class_code).getD []).foldl
    (fun msgs p_code => msgs ++ typingEntityMsg P entity lookup severity p_code) []

/-- typing_rules.py: the entity lookup dict
`{str(entity.id): entity for entity in entities}` built by
`validate_batch_typing`. -/
def entityLookup (entities : List CRMEntity) : List (String × CRMEntity) :=
  entities.foldl (fun d e => pySet d e.id e) []

/-- typing_rules.py: `validate_batch_typing(entities, severity)`: build
the id lookup dict, then collect each entity's nonempty message lists. -/
def validate_batch_typing (P : PTable) (D : DomainTable)
    (entities : List CRMEntity) (severity : ValidationSeverity) :
    List (String × List String) :=
  entities.foldl
    (fun results e =>
      if validate_entity_typing P D e (entityLookup entities) severity = []
      then results
      else pySet results e.id
        (validate_entity_typing P D e (entityLookup entities) severity))
    []

/-- Stage A starting from an arbitrary registry (generalization of
`regOf` used to state fold invariants). -/
def registerAll (reg : EntityRegistry) (L : List LiteEntity) : EntityRegistry :=
  L.foldl (fun r le => (register r le).1) reg

/-- One Stage B step as a partial map: the resolved relationship when
both endpoints resolve, `none` otherwise. -/
def resolveRel (reg : EntityRegistry) (r : LiteRelationshipFixed) :
    Option ExtractedRelationship :=
  match resolve reg r.source_ref, resolve reg r.target_ref with
  | some s, some t => some (mkRelFixed s t r)
  | _, _ => none

/-! ## Spec-side definitions used only in claim statements -/

/-- The first lite entity in registration order bearing a given label. -/
def firstWithLabel (L : List LiteEntity) (lab : String) : Option LiteEntity :=
  L.find? (fun le => le.label == lab)

/-- The spec's fixed entity-type mapping, written from its words:
Person to E21, Event to E5, Place to E53, Object to E22, TimeSpan to E52,
any other string to E55. -/
def specTypeToClass (t : String) : String :=
  if t = "Person" then "E21"
  else if t = "Event" then "E5"
  else if t = "Place" then "E53"
  else if t = "Object" then "E22"
  else if t = "TimeSpan" then "E52"
  else "E55"

/-- The spec's "equal to or a descendant of" relation, read off the class
ancestry table. -/
def isOrDescendant (c d : String) : Prop :=
  c = d ∨ d ∈ (pyGet inheritance_map c).getD []

instance (c d : String) : Decidable (isOrDescendant c d) := by
  unfold isOrDescendant; infer_instance

/-- The property codes applicable to an entity per the DOMAIN table. -/
def applicableProps (D : DomainTable) (e : CRMEntity) : List String :=
  (pyGet D e.class_code).getD []

/-- Whether a quantifier string is well-formed (parses without the
`ValueError` that the spec calls an internal schema defect). -/
def parseOk (q : String) : Bool :=
  match _parse_quantifier q with
  | .ok _ => true
  | .error _ => false

/-- Spec-side notion of a cardinality violation: the property is known,
its domain is the entity's class, its quantifier parses, and the number
of values held lies outside the declared range. -/
def hasQuantViolation (P : PTable) (e : CRMEntity) (p_code : String) : Bool :=
  match pyGet P p_code with
  | none => false
  | some info =>
    if e.class_code = info.domain then
      match _parse_quantifier info.quantifier with
      | .ok mm =>
        let n : Int := ((_get_property_values e p_code).length : Int)
        decide (n < mm.1) ||
          (match mm.2 with | some mx => decide (n > mx) | none => false)
      | .error _ => false
    else false

/-- Spec-side notion of a domain/range typing violation for one entity
and one applicable property: some resolvable target exists whose triple
fails the domain or the range side. -/
def hasTypingViolation (P : PTable) (entity : CRMEntity)
    (lookup : List (String × CRMEntity)) (p_code : String) : Bool :=
  (_get_property_target_ids entity p_code).any (fun tid =>
    match pyGet lookup tid with
    | none => false
    | some target =>
      match pyGet P p_code with
      | none => false
      | some info =>
        !(_is_class_compatible entity.class_code info.domain) ||
          !(_is_class_compatible target.class_code info.range))

/-! ## Concrete inputs used by counterexamples and witnesses -/

/-- A minimal extraction with one resolvable relationship: two entities
and one relationship between them. -/
def c1FailingInput : LiteExtractionResult :=
  { entities := [{ ref_id := "person_1", entity_type := "Person", label := "Einstein" },
                 { ref_id := "place_1", entity_type := "Place", label := "Ulm" }],
    relationships := [{ source_ref := "person_1", target_ref := "place_1",
                        property_code := "P98", property_label := "was born" }] }

/-- Three lite entities whose uuid5 name strings collide across distinct
labels: "a" + ":" + "b:c" and "a:b" + ":" + "c" are the same string, so
the first-registered entity for label "b:c" and the one for label "c"
get the same stable id. -/
def c2CollisionInput : List LiteEntity :=
  [{ ref_id := "a", entity_type := "Person", label := "b:c" },
   { ref_id := "a:b", entity_type := "Person", label := "c" },
   { ref_id := "r2", entity_type := "Person", label := "c" }]

/-- The P108 entry (domain E22, range E12, quantifier "0..1") as
attested by the repository's validator tests. -/
def p108Info : PropInfo :=
  { plabel := "was produced by", domain := "E22", range := "E12",
    inverse := "P108i", quantifier := "0..1" }

/-- A one-entry property table holding `p108Info`. -/
def p108Table : PTable := [("P108", p108Info)]

/-- A property entry with domain E18, of which E22 is a proper
descendant. -/
def e18Info : PropInfo :=
  { plabel := "is composed of", domain := "E18", range := "E18",
    quantifier := "0..*" }

/-- A one-entry property table holding `e18Info`. -/
def e18DomainTable : PTable := [("P46", e18Info)]

/-- An E22 entity with a concrete id, used in validator scenarios. -/
def obj001 : CRMEntity := { id := "obj_001", class_code := "E22" }

/-- An E22 source entity for the domain/range scenario. -/
def c7Source : CRMEntity := { id := "s1", class_code := "E22" }

/-- An E22 target entity for the domain/range scenario (E22 is not a
descendant of the declared range E12). -/
def c7Target : CRMEntity := { id := "t1", class_code := "E22" }

/-- A one-entry property table binding P2 (whose values are read from the
`type` field) with quantifier "0..1" and domain E22. -/
def c8Table : PTable :=
  [("P2", { plabel := "has type", domain := "E22", range := "E55",
            quantifier := "0..1" })]

/-- A DOMAIN table making P2 applicable to class E22. -/
def c8Domain : DomainTable := [("E22", ["P2"])]

/-- An E22 entity holding two values for the `type` field, i.e. two
values for property P2. -/
def c8Entity : CRMEntity :=
  { id := "x1", class_code := "E22", attrs := [("type", .plist ["a", "b"])] }

/-- A relationship whose target ref resolves to nothing. -/
def c5Rel : LiteRelationshipFixed :=
  { source_ref := "p1", target_ref := "missing",
    property_code := "P98", property_label := "x" }

/-- A lite extraction with one entity and one relationship whose target
ref resolves to nothing. -/
def c5BrokenInput : LiteExtractionResultFixed :=
  { entities := [{ ref_id := "p1", entity_type := "Person", label := "A" }],
    relationships := [c5Rel] }

/-- The Einstein lite entity used by the C3 witness. -/
def einsteinLite : LiteEntity :=
  { ref_id := "person_1", entity_type := "Person", label := "Einstein" }

/-- A second lite entity with the same label under another ref_id. -/
def einstein2Lite : LiteEntity :=
  { ref_id := "person_2", entity_type := "Person", label := "Einstein" }

/-- A relationship-free extraction (the faithful pipeline succeeds on it). -/
def c3WitnessInput : LiteExtractionResult := { entities := [einsteinLite] }

/-- The result the faithful pipeline produces on `c3WitnessInput`. -/
def c3WitnessResult : ExtractionResult :=
  { entities := [_make_extracted_entity einsteinLite], relationships := [] }

/-- The resolved relationship that `c4GoodInput` produces. -/
def c4WitnessRel : ExtractedRelationship :=
  { source_id := ⟨_EXTRACTION_NAMESPACE, "person_1:Einstein"⟩,
    target_id := ⟨_EXTRACTION_NAMESPACE, "place_1:Ulm"⟩,
    property_code := "P98", property_label := "was born", confidence := 1,
    source_text := some "Einstein was born in Ulm" }

/-- A lite extraction with two entities and one fully resolvable
relationship carrying a source snippet. -/
def c4GoodInput : LiteExtractionResultFixed :=
  { entities := [{ ref_id := "person_1", entity_type := "Person", label := "Einstein" },
                 { ref_id := "place_1", entity_type := "Place", label := "Ulm" }],
    relationships := [{ source_ref := "person_1", target_ref := "place_1",
                        property_code := "P98", property_label := "was born",
                        source_snippet := some "Einstein was born in Ulm" }] }

/-! ## Helper lemmas: Python dict operations -/

theorem pyGet_pySet {α : Type} (d : List (String × α)) (k k' : String) (v : α) :
    pyGet (pySet d k v) k' = if k' = k then some v else pyGet d k' := by
  induction d with
  | nil => simp [pySet, pyGet]
  | cons hd tl ih =>
    obtain ⟨kh, vh⟩ := hd
    by_cases hk : k = kh
    · subst hk
      by_cases hk' : k' = k <;> simp [pySet, pyGet, hk']
    · by_cases hk' : k' = kh
      · subst hk'
        simp [pySet, pyGet, hk, Ne.symm hk]
      · simp [pySet, pyGet, hk, hk', ih]

theorem pyGet_mem_values {α : Type} {d : List (String × α)} {k : String} {v : α}
    (h : pyGet d k = some v) : v ∈ d.map Prod.snd := by
  induction d with
  | nil => simp [pyGet] at h
  | cons hd tl ih =>
    rw [pyGet] at h
    by_cases hk : k = hd.1
    · simp [hk] at h
      simp [← h]
    · simp [hk] at h
      simp [ih h]

theorem mem_values_pySet {α : Type} {d : List (String × α)} {k : String} {v x : α}
    (h : x ∈ (pySet d k v).map Prod.snd) : x = v ∨ x ∈ d.map Prod.snd := by
  induction d with
  | nil => simpa [pySet] using h
  | cons hd tl ih =>
    rw [pySet] at h
    by_cases hk : k = hd.1
    · rw [if_pos hk, List.map_cons, List.mem_cons] at h
      rcases h with h | h
      · exact .inl h
      · exact .inr (by simp [h])
    · rw [if_neg hk, List.map_cons, List.mem_cons] at h
      rcases h with h | h
      · exact .inr (by simp [h])
      · rcases ih h with h | h
        · exact .inl h
        · exact .inr (by simp [h])

theorem pySet_of_fresh {α : Type} {d : List (String × α)} {k : String}
    (v : α) (h : pyGet d k = none) : pySet d k v = d ++ [(k, v)] := by
  induction d with
  | nil => simp [pySet]
  | cons hd tl ih =>
    rw [pyGet] at h
    by_cases hk : k = hd.1
    · simp [hk] at h
    · simp [hk] at h
      simp [pySet, hk, ih h]

theorem keys_pySet_of_found {α : Type} {d : List (String × α)} {k : String}
    {w : α} (v : α) (h : pyGet d k = some w) :
    (pySet d k v).map Prod.fst = d.map Prod.fst := by
  induction d with
  | nil => simp [pyGet] at h
  | cons hd tl ih =>
    rw [pyGet] at h
    by_cases hk : k = hd.1
    · simp [pySet, hk]
    · simp [hk] at h
      simp [pySet, hk, ih h]

theorem mem_pyGet_ne_none {α : Type} {d : List (String × α)} {k : String} {v : α}
    (h : (k, v) ∈ d) : pyGet d k ≠ none := by
  induction d with
  | nil => simp at h
  | cons hd tl ih =>
    rcases List.mem_cons.1 h with h | h
    · simp [← h, pyGet]
    · rw [pyGet]
      by_cases hk : k = hd.1 <;> simp [hk, ih h]

theorem pyGet_of_mem_nodupKeys {α : Type} {d : List (String × α)} {k : String}
    {v : α} (hnd : (d.map Prod.fst).Nodup) (h : (k, v) ∈ d) :
    pyGet d k = some v := by
  induction d with
  | nil => simp at h
  | cons hd tl ih =>
    simp at hnd
    rcases List.mem_cons.1 h with h | h
    · simp [← h, pyGet]
    · rw [pyGet]
      by_cases hk : k = hd.1
      · exfalso
        subst hk
        exact hnd.1 v h
      · simp [hk, ih hnd.2 h]

/-! ## Claim theorems: simple validator facts -/

/-- C9: registration assigns the class codes by the fixed mapping
Person to E21, Event to E5, Place to E53, Object to E22, TimeSpan to E52,
and any other entity_type string falls back to E55; the conversion is a
total function, so no input can make it raise. -/
theorem c9_entity_type_mapping (lite : LiteEntity) :
    (_make_extracted_entity lite).class_code = specTypeToClass lite.entity_type := by
  unfold _make_extracted_entity specTypeToClass _ENTITY_TYPE_MAP pyGet
  split_ifs <;> simp_all [pyGet]

/-- C10: for a known property code whose declared domain differs from the
entity's class code — the comparison is exact string equality, so in
particular also when the entity's class is a proper descendant of the
domain — `enforce_quantifier` returns normally with no cardinality check
performed, nothing raised and no warning emitted, at every severity. -/
theorem c10_domain_mismatch_skips_check (P : PTable) (entity : CRMEntity)
    (p_code : String) (values : List String) (severity : ValidationSeverity)
    (info : PropInfo) (hP : pyGet P p_code = some info)
    (hd : info.domain ≠ entity.class_code) :
    enforce_quantifier P entity p_code values severity = ⟨none, []⟩ := by
  unfold enforce_quantifier
  rcases severity with _ | _ | _ <;> simp [hP, Ne.symm hd]

/-- C10 witness: E22 is a proper descendant of E18 per the ancestry
table, and an E22 entity with three values for an E18-domain property
passes `enforce_quantifier` untouched at raise severity. -/
theorem c10_domain_mismatch_skips_check_witness :
    isOrDescendant "E22" "E18" ∧ "E22" ≠ "E18" ∧
      enforce_quantifier e18DomainTable obj001 "P46" ["a", "b", "c"]
        .raiseSeverity = ⟨none, []⟩ :=
  ⟨by decide, by decide,
    c10_domain_mismatch_skips_check e18DomainTable obj001 "P46" ["a", "b", "c"]
      .raiseSeverity e18Info rfl (by decide)⟩

/-- C6: an entity holding 2 values for a property with quantifier "0..1"
whose domain is the entity's class: raise severity raises a
CRMValidationError whose message names the property code, the allowed
maximum (1), the actual count (2), the entity id and its class; warn
severity returns normally and emits exactly that one warning; ignore
severity returns normally with no warning. -/
theorem c6_quantifier_severity_modes (P : PTable) (entity : CRMEntity)
    (p_code : String) (values : List String) (info : PropInfo)
    (hP : pyGet P p_code = some info) (hq : info.quantifier = "0..1")
    (hd : info.domain = entity.class_code) (hv : values.length = 2) :
    enforce_quantifier P entity p_code values .raiseSeverity =
      ⟨some (.crmError ("Property " ++ p_code ++ " allows at most " ++ "1" ++
        " values, got " ++ "2" ++ " (Entity: " ++ entity.id ++ ", Class: " ++
        entity.class_code ++ ")")), []⟩ ∧
    enforce_quantifier P entity p_code values .warn =
      ⟨none, ["Property " ++ p_code ++ " allows at most " ++ "1" ++
        " values, got " ++ "2" ++ " (Entity: " ++ entity.id ++ ", Class: " ++
        entity.class_code ++ ")"]⟩ ∧
    enforce_quantifier P entity p_code values .ignore = ⟨none, []⟩ := by
  refine ⟨?_, ?_, ?_⟩ <;>
    simp [enforce_quantifier, hP, hq, hd, hv, _handle_violation, _parse_quantifier,
      _splitOnDotsAux, _digitsVal, _parseIntChars] <;>
    rfl

/-- C6 witness: the concrete P108 scenario from the repository's own
tests (quantifier "0..1", domain E22, an E22 entity with two values). -/
theorem c6_quantifier_severity_modes_witness :
    enforce_quantifier p108Table obj001 "P108" ["a", "b"] .raiseSeverity =
      ⟨some (.crmError ("Property " ++ "P108" ++ " allows at most " ++ "1" ++
        " values, got " ++ "2" ++ " (Entity: " ++ obj001.id ++ ", Class: " ++
        obj001.class_code ++ ")")), []⟩ ∧
    enforce_quantifier p108Table obj001 "P108" ["a", "b"] .warn =
      ⟨none, ["Property " ++ "P108" ++ " allows at most " ++ "1" ++
        " values, got " ++ "2" ++ " (Entity: " ++ obj001.id ++ ", Class: " ++
        obj001.class_code ++ ")"]⟩ ∧
    enforce_quantifier p108Table obj001 "P108" ["a", "b"] .ignore = ⟨none, []⟩ :=
  c6_quantifier_severity_modes p108Table obj001 "P108" ["a", "b"] p108Info
    rfl rfl rfl rfl

/-- C1: the source's `resolve_extraction` raises `AttributeError` on any
input whose relationship list contains a relationship both of whose
endpoints resolve, because `lite_schema.LiteRelationship` declares no
`source_snippet` attribute; here evaluated at a two-entity input with one
fully resolvable relationship. -/
theorem c1_resolve_extraction_raises :
    (resolve_extraction c1FailingInput).2 =
      .error (.attrError "LiteRelationship object has no attribute source_snippet") :=
  rfl

/-! ## Helper lemmas: registry fold invariants -/

theorem pyGet_append {α : Type} (d d' : List (String × α)) (k : String) :
    pyGet (d ++ d') k =
      match pyGet d k with
      | some v => some v
      | none => pyGet d' k := by
  induction d with
  | nil => simp [pyGet]
  | cons hd tl ih =>
    by_cases hk : k = hd.1 <;> simp [pyGet, hk, ih]

theorem pyGet_none_not_mem_keys {α : Type} {d : List (String × α)} {k : String}
    (h : pyGet d k = none) : k ∉ d.map Prod.fst := by
  intro hk
  obtain ⟨p, hmem, hfst⟩ := List.mem_map.1 hk
  obtain ⟨k', v⟩ := p
  cases hfst
  exact mem_pyGet_ne_none hmem h

theorem make_label (x : LiteEntity) : (_make_extracted_entity x).label = x.label := rfl

theorem make_id (x : LiteEntity) :
    (_make_extracted_entity x).id =
      ⟨_EXTRACTION_NAMESPACE, x.ref_id ++ ":" ++ x.label⟩ := rfl

theorem registerAll_cons (reg : EntityRegistry) (x : LiteEntity)
    (rest : List LiteEntity) :
    registerAll reg (x :: rest) = registerAll (register reg x).1 rest := rfl

theorem regOf_eq (L : List LiteEntity) : regOf L = registerAll {} L := rfl

theorem register_by_label_found {reg : EntityRegistry} {x : LiteEntity}
    {ex : ExtractedEntity} (h : pyGet reg.by_label x.label = some ex) :
    (register reg x).1.by_label = reg.by_label := by
  simp [register, h]

theorem register_by_label_fresh {reg : EntityRegistry} {x : LiteEntity}
    (h : pyGet reg.by_label x.label = none) :
    (register reg x).1.by_label =
      reg.by_label ++ [(x.label, _make_extracted_entity x)] := by
  simp [register, h, pySet_of_fresh]

theorem register_by_ref (reg : EntityRegistry) (x : LiteEntity) :
    (register reg x).1.by_ref_id =
      pySet reg.by_ref_id x.ref_id (register reg x).2 := by
  cases hx : pyGet reg.by_label x.label <;> simp [register, hx]

theorem register_by_label_self (reg : EntityRegistry) (x : LiteEntity) :
    pyGet (register reg x).1.by_label x.label = some (register reg x).2 := by
  cases hx : pyGet reg.by_label x.label with
  | none =>
    rw [register_by_label_fresh hx, pyGet_append, hx]
    simp [pyGet, register, hx]
  | some ex =>
    rw [register_by_label_found hx]
    simp [register, hx]

theorem by_label_stable (L : List LiteEntity) :
    ∀ (reg : EntityRegistry) (lab : String) (e : ExtractedEntity),
      pyGet reg.by_label lab = some e →
      pyGet (registerAll reg L).by_label lab = some e := by
  induction L with
  | nil => intro reg lab e h; exact h
  | cons x rest ih =>
    intro reg lab e h
    rw [registerAll_cons]
    apply ih
    cases hx : pyGet reg.by_label x.label with
    | some ex => rw [register_by_label_found hx]; exact h
    | none =>
      rw [register_by_label_fresh hx, pyGet_append, h]

theorem firstWithLabel_cons (x : LiteEntity) (rest : List LiteEntity)
    (lab : String) :
    firstWithLabel (x :: rest) lab =
      if x.label = lab then some x else firstWithLabel rest lab := by
  by_cases hx : x.label = lab
  · simp [firstWithLabel, List.find?, hx]
  · have hb : (x.label == lab) = false := by simpa using hx
    simp [firstWithLabel, List.find?, hb, hx]

theorem by_label_of_fresh (L : List LiteEntity) :
    ∀ (reg : EntityRegistry) (lab : String),
      pyGet reg.by_label lab = none →
      pyGet (registerAll reg L).by_label lab =
        (firstWithLabel L lab).map _make_extracted_entity := by
  induction L with
  | nil => intro reg lab h; simpa [registerAll, firstWithLabel]
  | cons x rest ih =>
    intro reg lab h
    rw [registerAll_cons, firstWithLabel_cons]
    by_cases hlab : x.label = lab
    · subst hlab
      have hfresh := register_by_label_fresh h
      have hself : pyGet (register reg x).1.by_label x.label =
          some (register reg x).2 := register_by_label_self reg x
      have : (register reg x).2 = _make_extracted_entity x := by
        simp [register, h]
      rw [by_label_stable rest _ _ _ hself, this]
      simp
    · have hx : pyGet (register reg x).1.by_label lab = none := by
        cases hx2 : pyGet reg.by_label x.label with
        | some ex => rw [register_by_label_found hx2]; exact h
        | none =>
          rw [register_by_label_fresh hx2, pyGet_append, h]
          have hne : ¬ lab = x.label := fun hc => hlab hc.symm
          simp [pyGet, hne]
      rw [ih _ _ hx]
      simp [hlab]

theorem by_ref_stable (L : List LiteEntity) :
    ∀ (reg : EntityRegistry) (r : String),
      r ∉ L.map LiteEntity.ref_id →
      pyGet (registerAll reg L).by_ref_id r = pyGet reg.by_ref_id r := by
  induction L with
  | nil => intro reg r _; rfl
  | cons x rest ih =>
    intro reg r hr
    simp [List.mem_cons] at hr
    rw [registerAll_cons, ih _ _ (by simpa using hr.2), register_by_ref,
      pyGet_pySet]
    simp [hr.1]

theorem by_ref_of_mem (L : List LiteEntity) :
    ∀ (reg : EntityRegistry) (x : LiteEntity),
      x ∈ L → (L.map LiteEntity.ref_id).Nodup →
      pyGet (registerAll reg L).by_ref_id x.ref_id =
        pyGet (registerAll reg L).by_label x.label := by
  induction L with
  | nil => intro reg x hx _; simp at hx
  | cons y rest ih =>
    intro reg x hx hnd
    simp [List.nodup_cons] at hnd
    rcases List.mem_cons.1 hx with hxy | hxr
    · subst hxy
      rw [registerAll_cons]
      have h1 : pyGet (register reg x).1.by_ref_id x.ref_id =
          some (register reg x).2 := by
        rw [register_by_ref, pyGet_pySet]; simp
      rw [by_ref_stable rest _ _ (by simpa using hnd.1),
        by_label_stable rest _ _ _ (register_by_label_self reg x), h1]
    · rw [registerAll_cons]
      exact ih _ x hxr hnd.2

theorem by_label_mem_cases (L : List LiteEntity) :
    ∀ (reg : EntityRegistry) (k : String) (e : ExtractedEntity),
      (k, e) ∈ (registerAll reg L).by_label →
      (k, e) ∈ reg.by_label ∨
        ∃ x, x ∈ L ∧ x.label = k ∧ e = _make_extracted_entity x := by
  induction L with
  | nil => intro reg k e h; exact .inl h
  | cons x rest ih =>
    intro reg k e h
    rw [registerAll_cons] at h
    rcases ih _ _ _ h with h1 | ⟨z, hz, hzl, hze⟩
    · cases hx : pyGet reg.by_label x.label with
      | some ex =>
        rw [register_by_label_found hx] at h1
        exact .inl h1
      | none =>
        rw [register_by_label_fresh hx] at h1
        rcases List.mem_append.1 h1 with h2 | h2
        · exact .inl h2
        · simp at h2
          exact .inr ⟨x, by simp, h2.1.symm, h2.2⟩
    · exact .inr ⟨z, by simp [hz], hzl, hze⟩

theorem by_label_keys_nodup (L : List LiteEntity) :
    ∀ reg : EntityRegistry, ((reg.by_label.map Prod.fst).Nodup) →
      (((registerAll reg L).by_label.map Prod.fst).Nodup) := by
  induction L with
  | nil => intro reg h; exact h
  | cons x rest ih =>
    intro reg h
    rw [registerAll_cons]
    apply ih
    cases hx : pyGet reg.by_label x.label with
    | some ex => rw [register_by_label_found hx]; exact h
    | none =>
      rw [register_by_label_fresh hx, List.map_append, List.nodup_append]
      refine ⟨h, by simp, ?_⟩
      intro a ha hb
      simp at hb
      subst hb
      exact pyGet_none_not_mem_keys hx ha

theorem by_label_entry_label {L : List LiteEntity} {k : String}
    {e : ExtractedEntity} (h : (k, e) ∈ (registerAll {} L).by_label) :
    e.label = k := by
  rcases by_label_mem_cases L {} k e h with h1 | ⟨x, _, hxl, hxe⟩
  · simp at h1
  · rw [hxe, make_label, hxl]

theorem register_by_label_values_mono {reg : EntityRegistry} {x : LiteEntity}
    {v : ExtractedEntity} (h : v ∈ reg.by_label.map Prod.snd) :
    v ∈ (register reg x).1.by_label.map Prod.snd := by
  cases hx : pyGet reg.by_label x.label with
  | some ex => rw [register_by_label_found hx]; exact h
  | none =>
    rw [register_by_label_fresh hx]
    simp at h ⊢
    rcases h with ⟨a, ha⟩
    exact .inl ⟨a, ha⟩

theorem by_label_values_mono (L : List LiteEntity) :
    ∀ (reg : EntityRegistry) (v : ExtractedEntity),
      v ∈ reg.by_label.map Prod.snd →
      v ∈ (registerAll reg L).by_label.map Prod.snd := by
  induction L with
  | nil => intro reg v h; exact h
  | cons x rest ih =>
    intro reg v h
    exact ih _ v (register_by_label_values_mono h)

theorem by_ref_values_sub (L : List LiteEntity) :
    ∀ reg : EntityRegistry,
      (∀ v, v ∈ reg.by_ref_id.map Prod.snd → v ∈ reg.by_label.map Prod.snd) →
      ∀ v, v ∈ (registerAll reg L).by_ref_id.map Prod.snd →
        v ∈ (registerAll reg L).by_label.map Prod.snd := by
  induction L with
  | nil => intro reg h v hv; exact h v hv
  | cons x rest ih =>
    intro reg h v hv
    rw [registerAll_cons] at hv ⊢
    refine ih _ ?_ v hv
    intro w hw
    rw [register_by_ref] at hw
    rcases mem_values_pySet hw with hw1 | hw1
    · subst hw1
      exact pyGet_mem_values (register_by_label_self reg x)
    · exact register_by_label_values_mono (h w hw1)

/-! ## Helper lemmas: entity deduplication and Stage B -/

theorem entitiesFrom_subset :
    ∀ (vals : List ExtractedEntity) (seen : List PyUUID) (e : ExtractedEntity),
      e ∈ entitiesFrom seen vals → e ∈ vals := by
  intro vals
  induction vals with
  | nil => intro seen e h; simp [entitiesFrom] at h
  | cons f rest ih =>
    intro seen e h
    rw [entitiesFrom] at h
    by_cases hf : f.id ∈ seen
    · rw [if_pos hf] at h
      exact List.mem_cons.2 (.inr (ih _ _ h))
    · rw [if_neg hf] at h
      rcases List.mem_cons.1 h with h1 | h1
      · exact List.mem_cons.2 (.inl h1)
      · exact List.mem_cons.2 (.inr (ih _ _ h1))

theorem entitiesFrom_covers :
    ∀ (vals : List ExtractedEntity) (seen : List PyUUID) (e : ExtractedEntity),
      e ∈ vals →
      e.id ∈ seen ∨ ∃ e', e' ∈ entitiesFrom seen vals ∧ e'.id = e.id := by
  intro vals
  induction vals with
  | nil => intro seen e h; simp at h
  | cons f rest ih =>
    intro seen e h
    rw [entitiesFrom]
    rcases List.mem_cons.1 h with h1 | h1
    · subst h1
      by_cases hf : e.id ∈ seen
      · exact .inl hf
      · exact .inr ⟨e, by rw [if_neg hf]; exact List.mem_cons.2 (.inl rfl), rfl⟩
    · by_cases hf : f.id ∈ seen
      · rw [if_pos hf]
        exact ih _ _ h1
      · rw [if_neg hf]
        rcases ih (f.id :: seen) e h1 with h2 | ⟨e', he', hid⟩
        · rcases List.mem_cons.1 h2 with h3 | h3
          · exact .inr ⟨f, List.mem_cons.2 (.inl rfl), h3.symm⟩
          · exact .inl h3
        · exact .inr ⟨e', List.mem_cons.2 (.inr he'), hid⟩

theorem entitiesFrom_of_nodup :
    ∀ (vals : List ExtractedEntity) (seen : List PyUUID),
      (vals.map ExtractedEntity.id).Nodup →
      (∀ v ∈ vals, v.id ∉ seen) →
      entitiesFrom seen vals = vals := by
  intro vals
  induction vals with
  | nil => intro seen _ _; rfl
  | cons f rest ih =>
    intro seen hnd hdisj
    simp [List.nodup_cons] at hnd
    rw [entitiesFrom, if_neg (hdisj f (List.mem_cons.2 (.inl rfl)))]
    rw [ih (f.id :: seen) hnd.2]
    intro v hv
    simp [List.mem_cons]
    constructor
    · intro hc
      exact hnd.1 v hv hc
    · exact hdisj v (List.mem_cons.2 (.inr hv))

theorem values_filter_label :
    ∀ (d : List (String × ExtractedEntity)),
      (d.map Prod.fst).Nodup →
      (∀ p ∈ d, (Prod.snd p).label = Prod.fst p) →
      ∀ (lab : String) (e : ExtractedEntity), pyGet d lab = some e →
      (d.map Prod.snd).filter (fun en => en.label = lab) = [e] := by
  intro d
  induction d with
  | nil => intro _ _ lab e h; simp [pyGet] at h
  | cons hd tl ih =>
    intro hnd hlab lab e h
    obtain ⟨k, v⟩ := hd
    rw [List.map_cons, List.nodup_cons] at hnd
    have hv : v.label = k := hlab (k, v) (List.mem_cons.2 (.inl rfl))
    rw [pyGet] at h
    by_cases hk : lab = k
    · rw [if_pos hk] at h
      injection h with h
      subst h
      subst hk
      have htl : (tl.map Prod.snd).filter (fun en => en.label = lab) = [] := by
        apply List.filter_eq_nil_iff.2
        intro a ha
        obtain ⟨p, hp, hpa⟩ := List.mem_map.1 ha
        subst hpa
        have hpl := hlab p (List.mem_cons.2 (.inr hp))
        have hne : p.2.label ≠ lab := by
          rw [hpl]
          intro hc
          exact hnd.1 (List.mem_map.2 ⟨p, hp, hc⟩)
        simpa using hne
      rw [List.map_cons, List.filter_cons]
      simp [hv, htl]
    · rw [if_neg hk] at h
      have hne : ¬ (v.label = lab) := by rw [hv]; exact fun hc => hk hc.symm
      have hb : (decide (v.label = lab)) = false := by simpa using hne
      rw [List.map_cons, List.filter_cons, hb]
      simp
      exact ih hnd.2 (fun p hp => hlab p (List.mem_cons.2 (.inr hp))) lab e h

theorem stageBFixed_rels (reg : EntityRegistry) :
    ∀ rels : List LiteRelationshipFixed,
      (stageBFixed reg rels).2 = rels.filterMap (resolveRel reg) := by
  intro rels
  induction rels with
  | nil => rfl
  | cons r rest ih =>
    rw [List.filterMap_cons]
    cases hs : resolve reg r.source_ref with
    | none => simp [stageBFixed, hs, resolveRel, ih]
    | some s =>
      cases ht : resolve reg r.target_ref with
      | none => simp [stageBFixed, hs, ht, resolveRel, ih]
      | some t => simp [stageBFixed, hs, ht, resolveRel, ih]

theorem stageBFixed_logs_cons (reg : EntityRegistry) (y : LiteRelationshipFixed)
    (rest : List LiteRelationshipFixed) :
    (stageBFixed reg rest).1 <:+ (stageBFixed reg (y :: rest)).1 := by
  cases hys : resolve reg y.source_ref with
  | none => simp [stageBFixed, hys, List.suffix_cons]
  | some s =>
    cases hyt : resolve reg y.target_ref with
    | none => simp [stageBFixed, hys, hyt, List.suffix_cons]
    | some t => simp [stageBFixed, hys, hyt, List.suffix_rfl]

theorem stageBFixed_log_source (reg : EntityRegistry) :
    ∀ (rels : List LiteRelationshipFixed) (r : LiteRelationshipFixed),
      r ∈ rels → resolve reg r.source_ref = none →
      LogMsg.brokenSource r.source_ref ∈ (stageBFixed reg rels).1 := by
  intro rels
  induction rels with
  | nil => intro r hr _; simp at hr
  | cons y rest ih =>
    intro r hr hs
    rcases List.mem_cons.1 hr with hry | hry
    · subst hry
      simp [stageBFixed, hs]
    · exact (stageBFixed_logs_cons reg y rest).mem (ih r hry hs)

theorem stageBFixed_log_target (reg : EntityRegistry) :
    ∀ (rels : List LiteRelationshipFixed) (r : LiteRelationshipFixed),
      r ∈ rels → (∃ s, resolve reg r.source_ref = some s) →
      resolve reg r.target_ref = none →
      LogMsg.brokenTarget r.target_ref ∈ (stageBFixed reg rels).1 := by
  intro rels
  induction rels with
  | nil => intro r hr _ _; simp at hr
  | cons y rest ih =>
    intro r hr hs ht
    rcases List.mem_cons.1 hr with hry | hry
    · subst hry
      obtain ⟨s, hs⟩ := hs
      simp [stageBFixed, hs, ht]
    · exact (stageBFixed_logs_cons reg y rest).mem (ih r hry hs ht)

/-! ## Claim theorems: resolution pipeline -/

/-- C4: every resolved relationship's `source_id` and `target_id` is the
id of some entity in the output entity list (no dangling output
relationship); proved over the pipeline with the spec-mandated
`source_snippet` field restored, since the faithful pipeline raises
before emitting any relationship (see C1). -/
theorem c4_referential_integrity (lr : LiteExtractionResultFixed)
    (rel : ExtractedRelationship)
    (h : rel ∈ (resolve_extraction_fixed lr).2.relationships) :
    (∃ e ∈ (resolve_extraction_fixed lr).2.entities, e.id = rel.source_id) ∧
    (∃ e ∈ (resolve_extraction_fixed lr).2.entities, e.id = rel.target_id) := by
  have hrel : (resolve_extraction_fixed lr).2.relationships =
      (stageBFixed (regOf lr.entities) lr.relationships).2 := rfl
  have hent : (resolve_extraction_fixed lr).2.entities =
      registryEntities (regOf lr.entities) := rfl
  rw [hrel, stageBFixed_rels] at h
  obtain ⟨r, hr, hres⟩ := List.mem_filterMap.1 h
  unfold resolveRel at hres
  cases hs : resolve (regOf lr.entities) r.source_ref with
  | none => rw [hs] at hres; simp at hres
  | some s =>
    cases ht : resolve (regOf lr.entities) r.target_ref with
    | none => rw [hs, ht] at hres; simp at hres
    | some t =>
      rw [hs, ht] at hres
      injection hres with hres
      have hmem : ∀ v : ExtractedEntity,
          v ∈ (regOf lr.entities).by_label.map Prod.snd →
          ∃ e ∈ (resolve_extraction_fixed lr).2.entities, e.id = v.id := by
        intro v hv
        rcases entitiesFrom_covers ((regOf lr.entities).by_label.map Prod.snd)
            [] v hv with hc | ⟨e', he', hid⟩
        · simp at hc
        · exact ⟨e', by rw [hent]; exact he', hid⟩
      have hsub : ∀ v : ExtractedEntity,
          v ∈ (regOf lr.entities).by_ref_id.map Prod.snd →
          v ∈ (regOf lr.entities).by_label.map Prod.snd := by
        rw [regOf_eq]
        exact by_ref_values_sub lr.entities {} (by intro v hv; simp at hv)
      have hsrc := hmem s (hsub s (pyGet_mem_values hs))
      have htgt := hmem t (hsub t (pyGet_mem_values ht))
      rw [← hres]
      exact ⟨hsrc, htgt⟩

/-- C4 witness: the two-entity input with one resolvable relationship. -/
theorem c4_referential_integrity_witness :
    (∃ e ∈ (resolve_extraction_fixed c4GoodInput).2.entities,
      e.id = c4WitnessRel.source_id) ∧
    (∃ e ∈ (resolve_extraction_fixed c4GoodInput).2.entities,
      e.id = c4WitnessRel.target_id) :=
  c4_referential_integrity c4GoodInput c4WitnessRel (by decide)

/-- C5: a relationship with an unresolvable endpoint is excluded from the
output (Stage B is the pointwise partial map `resolveRel`, which is
`none` on it), a warning naming the unresolved ref and the failing side
is logged, the remaining relationships are still processed (the output
is exactly the filterMap over the whole input list), and the entity list
— hence the entity count — is a function of the input entities alone. -/
theorem c5_broken_link_dropped (lr : LiteExtractionResultFixed)
    (r : LiteRelationshipFixed) (hr : r ∈ lr.relationships)
    (hbroken : resolve (regOf lr.entities) r.source_ref = none ∨
      resolve (regOf lr.entities) r.target_ref = none) :
    (resolve (regOf lr.entities) r.source_ref = none →
      LogMsg.brokenSource r.source_ref ∈ (resolve_extraction_fixed lr).1) ∧
    ((∃ s, resolve (regOf lr.entities) r.source_ref = some s) →
      resolve (regOf lr.entities) r.target_ref = none →
      LogMsg.brokenTarget r.target_ref ∈ (resolve_extraction_fixed lr).1) ∧
    (resolve_extraction_fixed lr).2.relationships =
      lr.relationships.filterMap (resolveRel (regOf lr.entities)) ∧
    resolveRel (regOf lr.entities) r = none ∧
    (resolve_extraction_fixed lr).2.entities =
      registryEntities (regOf lr.entities) := by
  have hlog : (resolve_extraction_fixed lr).1 =
      (stageBFixed (regOf lr.entities) lr.relationships).1 := rfl
  refine ⟨?_, ?_, ?_, ?_, rfl⟩
  · intro hs
    rw [hlog]
    exact stageBFixed_log_source _ _ r hr hs
  · intro hs ht
    rw [hlog]
    exact stageBFixed_log_target _ _ r hr hs ht
  · exact stageBFixed_rels _ _
  · unfold resolveRel
    rcases hbroken with hs | ht
    · rw [hs]
    · rw [ht]
      cases resolve (regOf lr.entities) r.source_ref
      · rfl
      · rfl

/-- C5 witness: one entity, one relationship whose target ref is
unresolvable; the drop is logged, the output relationship list is the
(empty) filterMap, and the entity list is untouched. -/
theorem c5_broken_link_dropped_witness :
    LogMsg.brokenTarget "missing" ∈ (resolve_extraction_fixed c5BrokenInput).1 ∧
    resolveRel (regOf c5BrokenInput.entities) c5Rel = none ∧
    (resolve_extraction_fixed c5BrokenInput).2.relationships =
      c5BrokenInput.relationships.filterMap
        (resolveRel (regOf c5BrokenInput.entities)) ∧
    (resolve_extraction_fixed c5BrokenInput).2.entities =
      registryEntities (regOf c5BrokenInput.entities) := by
  have h := c5_broken_link_dropped c5BrokenInput c5Rel (by decide) (Or.inr rfl)
  exact ⟨h.2.1 ⟨_, rfl⟩ rfl, h.2.2.2.1, h.2.2.1, h.2.2.2.2⟩

/-- C2 counterexample: three registered entities, the second and third
sharing label "c"; because the uuid5 name string of ("a", "b:c") equals
that of ("a:b", "c"), the two distinct labels get the same stable id and
the `entities` property drops the second — the output contains zero
entities with label "c", not exactly one, although both ref_ids still
resolve to one shared entity. -/
theorem c2_label_dedup_counterexample :
    c2CollisionInput.map LiteEntity.label = ["b:c", "c", "c"] ∧
    resolve (regOf c2CollisionInput) "a:b" = resolve (regOf c2CollisionInput) "r2" ∧
    ((registryEntities (regOf c2CollisionInput)).filter
      (fun e => e.label = "c")).length = 0 :=
  ⟨rfl, rfl, rfl⟩

/-- C2 (amended): under the spec's ref_id-uniqueness contract and
provided no two registered entities produce the same uuid5 name string
"{ref_id}:{label}" with different labels, any two lite entities with
character-identical labels resolve (through their ref_ids) to one shared
entity — the unchanged first-registered entity for that label — and the
registry's entity list contains exactly one entity bearing that label. -/
theorem c2_label_dedup (L : List LiteEntity) (a b : LiteEntity)
    (ha : a ∈ L) (hb : b ∈ L) (hlab : a.label = b.label)
    (hrefs : (L.map LiteEntity.ref_id).Nodup)
    (hnames : ∀ x ∈ L, ∀ y ∈ L,
      x.ref_id ++ ":" ++ x.label = y.ref_id ++ ":" ++ y.label →
      x.label = y.label) :
    ∃ x, firstWithLabel L a.label = some x ∧
      resolve (regOf L) a.ref_id = some (_make_extracted_entity x) ∧
      resolve (regOf L) b.ref_id = some (_make_extracted_entity x) ∧
      (registryEntities (regOf L)).filter (fun e => e.label = a.label) =
        [_make_extracted_entity x] := by
  have hbase : pyGet (({} : EntityRegistry)).by_label a.label = none := rfl
  have hfirst : pyGet (registerAll {} L).by_label a.label =
      (firstWithLabel L a.label).map _make_extracted_entity :=
    by_label_of_fresh L {} a.label hbase
  have hsome : (firstWithLabel L a.label).isSome := by
    rw [firstWithLabel, List.find?_isSome]
    exact ⟨a, ha, by simp⟩
  obtain ⟨x, hx⟩ := Option.isSome_iff_exists.1 hsome
  rw [hx] at hfirst
  simp only [Option.map_some'] at hfirst
  have hkeys : ((registerAll {} L).by_label.map Prod.fst).Nodup :=
    by_label_keys_nodup L {} (by simp)
  have hlabels : ∀ p ∈ (registerAll {} L).by_label, (Prod.snd p).label = Prod.fst p := by
    intro p hp
    exact by_label_entry_label (show (p.1, p.2) ∈ _ from hp)
  have hpairsnd : ((registerAll {} L).by_label.map
      (fun p => (Prod.snd p).id)).Nodup := by
    apply List.Nodup.map_on
    · intro p hp q hq hid
      rcases by_label_mem_cases L {} p.1 p.2 (show (p.1, p.2) ∈ _ from hp) with
        h1 | ⟨xp, hxp, hxpl, hxpe⟩
      · simp at h1
      rcases by_label_mem_cases L {} q.1 q.2 (show (q.1, q.2) ∈ _ from hq) with
        h1 | ⟨xq, hxq, hxql, hxqe⟩
      · simp at h1
      have hnm : xp.ref_id ++ ":" ++ xp.label = xq.ref_id ++ ":" ++ xq.label := by
        have := hid
        rw [hxpe, hxqe, make_id, make_id] at this
        injection this
      have hll : xp.label = xq.label := hnames xp hxp xq hxq hnm
      have hk : p.1 = q.1 := by rw [← hxpl, ← hxql, hll]
      have hv : p.2 = q.2 := by
        have h1 := pyGet_of_mem_nodupKeys hkeys (show (p.1, p.2) ∈ _ from hp)
        have h2 := pyGet_of_mem_nodupKeys hkeys (show (q.1, q.2) ∈ _ from hq)
        rw [hk] at h1
        rw [h1] at h2
        exact Option.some_injective _ h2
      exact Prod.ext hk hv
    · exact hkeys.of_map Prod.fst
  have hids : (((registerAll {} L).by_label.map Prod.snd).map
      ExtractedEntity.id).Nodup := by
    rw [List.map_map]
    exact hpairsnd
  have hent : registryEntities (regOf L) =
      (registerAll {} L).by_label.map Prod.snd := by
    rw [regOf_eq, registryEntities]
    exact entitiesFrom_of_nodup _ [] hids (by simp)
  refine ⟨x, hx, ?_, ?_, ?_⟩
  · rw [regOf_eq]
    unfold resolve
    rw [by_ref_of_mem L {} a ha hrefs, hfirst]
  · rw [regOf_eq]
    unfold resolve
    rw [by_ref_of_mem L {} b hb hrefs, ← hlab, hfirst]
  · rw [hent]
    exact values_filter_label _ hkeys hlabels a.label _ hfirst

/-- C2 witness for the amended claim: the spec's own Einstein scenario —
two Person entities labelled "Einstein" under distinct ref_ids resolve
to one shared entity, and the entity list holds exactly one entity for
that label. -/
theorem c2_label_dedup_witness :
    ∃ x, firstWithLabel [einsteinLite, einstein2Lite] einsteinLite.label = some x ∧
      resolve (regOf [einsteinLite, einstein2Lite]) einsteinLite.ref_id =
        some (_make_extracted_entity x) ∧
      resolve (regOf [einsteinLite, einstein2Lite]) einstein2Lite.ref_id =
        some (_make_extracted_entity x) ∧
      (registryEntities (regOf [einsteinLite, einstein2Lite])).filter
        (fun e => e.label = einsteinLite.label) = [_make_extracted_entity x] :=
  c2_label_dedup [einsteinLite, einstein2Lite] einsteinLite einstein2Lite
    (by decide) (by decide) rfl (by decide) (by decide)

/-- C3: the pipeline is a pure function of its input (two runs agree,
including on the logged warnings and on any raised exception; the only
random value in the source, the uuid4 default for a relationship's own
`id`, lies outside the compared (source_id, property_code, target_id)
triples), and whenever it returns, every output entity is the unchanged
conversion of the first-registered lite entity bearing its label, its
identifier the uuid5 of the fixed namespace applied to
"{ref_id}:{label}" of that first-registered entity. -/
theorem c3_determinism_and_stable_ids (lr : LiteExtractionResult)
    (res : ExtractionResult) :
    resolve_extraction lr = resolve_extraction lr ∧
    ((resolve_extraction lr).2 = .ok res →
      ∀ e ∈ res.entities, ∃ x, firstWithLabel lr.entities e.label = some x ∧
        e = _make_extracted_entity x ∧
        e.id = ⟨_EXTRACTION_NAMESPACE, x.ref_id ++ ":" ++ x.label⟩) := by
  refine ⟨rfl, ?_⟩
  intro hok e he
  have hres : res.entities = registryEntities (regOf lr.entities) := by
    have hun : (resolve_extraction lr).2 =
        ((stageB (regOf lr.entities) lr.relationships).2).map
          (fun rels =>
            (⟨registryEntities (regOf lr.entities), rels⟩ : ExtractionResult)) := rfl
    rw [hun] at hok
    cases hsb : (stageB (regOf lr.entities) lr.relationships).2 with
    | error ex => rw [hsb] at hok; simp [Except.map] at hok
    | ok rels =>
      rw [hsb] at hok
      simp [Except.map] at hok
      rw [← hok]
  rw [hres, regOf_eq, registryEntities] at he
  have hev := entitiesFrom_subset _ [] e he
  obtain ⟨p, hp, hpe⟩ := List.mem_map.1 hev
  have hkeys : ((registerAll {} lr.entities).by_label.map Prod.fst).Nodup :=
    by_label_keys_nodup lr.entities {} (by simp)
  have hpl : e.label = p.1 := by
    rw [← hpe]
    exact by_label_entry_label (show (p.1, p.2) ∈ _ from hp)
  have hget : pyGet (registerAll {} lr.entities).by_label p.1 = some e := by
    rw [← hpe]
    exact pyGet_of_mem_nodupKeys hkeys (show (p.1, p.2) ∈ _ from hp)
  rw [by_label_of_fresh lr.entities {} p.1 rfl] at hget
  cases hx : firstWithLabel lr.entities p.1 with
  | none => rw [hx] at hget; simp at hget
  | some x =>
    rw [hx] at hget
    simp at hget
    refine ⟨x, by rw [hpl]; exact hx, hget.symm, ?_⟩
    rw [← hget, make_id]

/-- C3 witness: a relationship-free input on which the faithful pipeline
succeeds; its single output entity satisfies the identifier formula. -/
theorem c3_determinism_and_stable_ids_witness :
    (resolve_extraction c3WitnessInput).2 = .ok c3WitnessResult ∧
    ∃ x, firstWithLabel c3WitnessInput.entities
        (_make_extracted_entity einsteinLite).label = some x ∧
      _make_extracted_entity einsteinLite = _make_extracted_entity x ∧
      (_make_extracted_entity einsteinLite).id =
        ⟨_EXTRACTION_NAMESPACE, x.ref_id ++ ":" ++ x.label⟩ :=
  ⟨rfl, (c3_determinism_and_stable_ids c3WitnessInput c3WitnessResult).2 rfl
    (_make_extracted_entity einsteinLite) (by simp [c3WitnessResult])⟩

/-! ## Claim theorems: domain/range typing -/

theorem is_class_compatible_iff (c d : String) :
    _is_class_compatible c d = true ↔ isOrDescendant c d := by
  unfold _is_class_compatible isOrDescendant
  by_cases h : c = d <;> simp [h, List.contains_iff_exists_mem_beq]

/-- C7: under the default warn severity, `validate_domain_range_alignment`
raises nothing, reports a domain-side violation exactly when the source
entity's class is neither equal to nor a descendant of the property's
declared domain class (per the class ancestry table), and a range-side
violation exactly when the target entity's class is neither equal to nor
a descendant of the declared range class. -/
theorem c7_domain_range_alignment (P : PTable) (source target : CRMEntity)
    (p_code : String) (info : PropInfo) (hP : pyGet P p_code = some info) :
    (validate_domain_range_alignment P source target p_code .warn).raised = none ∧
    (validate_domain_range_alignment P source target p_code .warn).warnings =
      (if isOrDescendant source.class_code info.domain then []
       else ["Entity " ++ source.id ++ " (class " ++ source.class_code ++
         ") does not match domain " ++ info.domain ++ " for property " ++
         p_code ++ " (Property: " ++ p_code ++ ", Source: " ++ source.id ++
         ", Target: " ++ target.id ++ ")"]) ++
      (if isOrDescendant target.class_code info.range then []
       else ["Entity " ++ target.id ++ " (class " ++ target.class_code ++
         ") does not match range " ++ info.range ++ " for property " ++
         p_code ++ " (Property: " ++ p_code ++ ", Source: " ++ source.id ++
         ", Target: " ++ target.id ++ ")"]) := by
  have hiffS := is_class_compatible_iff source.class_code info.domain
  have hiffT := is_class_compatible_iff target.class_code info.range
  unfold validate_domain_range_alignment
  by_cases hdom : _is_class_compatible source.class_code info.domain <;>
    by_cases hrng : _is_class_compatible target.class_code info.range <;>
      simp [hP, hdom, hrng, _handle_violation_typing, ← hiffS, ← hiffT]

/-- C7 witness: the spec's scenario — source class E22 and target class
E22 against a property declared domain=E22, range=E12: the violation is
reported on the range side only. -/
theorem c7_domain_range_alignment_witness :
    (validate_domain_range_alignment p108Table c7Source c7Target "P108"
      .warn).raised = none ∧
    (validate_domain_range_alignment p108Table c7Source c7Target "P108"
      .warn).warnings =
      ["Entity t1 (class E22) does not match range E12 for property P108 (Property: P108, Source: s1, Target: t1)"] := by
  have h := c7_domain_range_alignment p108Table c7Source c7Target "P108"
    p108Info rfl
  refine ⟨h.1, ?_⟩
  rw [h.2]
  decide

/-! ## Helper lemmas: batch validation -/

theorem pyGet_some_mem {α : Type} {d : List (String × α)} {k : String} {v : α}
    (h : pyGet d k = some v) : (k, v) ∈ d := by
  induction d with
  | nil => simp [pyGet] at h
  | cons hd tl ih =>
    obtain ⟨kh, vh⟩ := hd
    rw [pyGet] at h
    by_cases hk : k = kh
    · rw [if_pos hk] at h
      injection h with h
      subst hk
      subst h
      exact List.mem_cons.2 (.inl rfl)
    · rw [if_neg hk] at h
      exact List.mem_cons.2 (.inr (ih h))

theorem pySet_ne_nil {α : Type} (d : List (String × α)) (k : String) (v : α) :
    pySet d k v ≠ [] := by
  cases d with
  | nil => simp [pySet]
  | cons hd tl => by_cases hk : k = hd.1 <;> simp [pySet, hk]

theorem foldl_append_bind {α : Type} (g : α → List String) :
    ∀ (ps : List α) (acc : List String),
      ps.foldl (fun m p => m ++ g p) acc = acc ++ ps.flatMap g := by
  intro ps
  induction ps with
  | nil => intro acc; simp
  | cons p rest ih =>
    intro acc
    rw [List.foldl_cons, ih, List.flatMap_cons, List.append_assoc]

theorem validate_entity_quantifiers_eq (P : PTable) (D : DomainTable)
    (entity : CRMEntity) (sev : ValidationSeverity) :
    validate_entity_quantifiers P D entity sev =
      (applicableProps D entity).flatMap (quantEntityMsg P entity sev) := by
  unfold validate_entity_quantifiers applicableProps
  rw [foldl_append_bind]
  simp

theorem validate_entity_typing_eq (P : PTable) (D : DomainTable)
    (entity : CRMEntity) (lookup : List (String × CRMEntity))
    (sev : ValidationSeverity) :
    validate_entity_typing P D entity lookup sev =
      (applicableProps D entity).flatMap (typingEntityMsg P entity lookup sev) := by
  unfold validate_entity_typing applicableProps
  rw [foldl_append_bind]
  simp

theorem enforce_ignore (P : PTable) (e : CRMEntity) (p : String)
    (v : List String) : enforce_quantifier P e p v .ignore = ⟨none, []⟩ := rfl

theorem enforce_warn_raised_none (P : PTable) (e : CRMEntity) (p : String)
    (v : List String) (hwf : ∀ pr ∈ P, parseOk pr.2.quantifier = true) :
    (enforce_quantifier P e p v .warn).raised = none := by
  unfold enforce_quantifier
  rw [if_neg (by simp)]
  cases hp : pyGet P p with
  | none => rfl
  | some info =>
    by_cases hd : e.class_code ≠ info.domain
    · simp [hd]
    · have hpo := hwf (p, info) (pyGet_some_mem hp)
      unfold parseOk at hpo
      cases hparse : _parse_quantifier info.quantifier with
      | error m => rw [hparse] at hpo; simp at hpo
      | ok mm =>
        simp only [hd, if_false, hparse]
        split_ifs <;> simp [_handle_violation] <;>
          cases mm.2 <;> simp [_handle_violation] <;> split_ifs <;>
            simp [_handle_violation]

theorem quantEntityMsg_warn (P : PTable) (e : CRMEntity) (p : String)
    (hwf : ∀ pr ∈ P, parseOk pr.2.quantifier = true) :
    quantEntityMsg P e .warn p = [] := by
  unfold quantEntityMsg
  rw [enforce_warn_raised_none P e p _ hwf]

theorem quantEntityMsg_ignore (P : PTable) (e : CRMEntity) (p : String) :
    quantEntityMsg P e .ignore p = [] := rfl

theorem quantEntityMsg_raise_iff (P : PTable) (e : CRMEntity) (p : String)
    (hwf : ∀ pr ∈ P, parseOk pr.2.quantifier = true) :
    (quantEntityMsg P e .raiseSeverity p ≠ []) ↔ hasQuantViolation P e p = true := by
  unfold quantEntityMsg hasQuantViolation enforce_quantifier
  rw [if_neg (by simp)]
  cases hp : pyGet P p with
  | none => simp
  | some info =>
    dsimp only
    by_cases hd : e.class_code = info.domain
    · rw [if_neg (show ¬ (e.class_code ≠ info.domain) from by simp [hd]),
        if_pos hd]
      have hpo := hwf (p, info) (pyGet_some_mem hp)
      unfold parseOk at hpo
      cases hparse : _parse_quantifier info.quantifier with
      | error m => rw [hparse] at hpo; simp at hpo
      | ok mm =>
        dsimp only
        by_cases h1 : ((_get_property_values e p).length : Int) < mm.1
        · rw [if_pos h1]
          simp [_handle_violation, h1]
        · rw [if_neg h1]
          dsimp only
          cases hm : mm.2 with
          | none => simp [h1]
          | some mx =>
            dsimp only
            by_cases h2 : ((_get_property_values e p).length : Int) > mx
            · rw [if_pos h2]
              simp [_handle_violation, h1, h2]
            · rw [if_neg h2]
              simp [h1, h2]
    · rw [if_pos (show e.class_code ≠ info.domain from hd), if_neg hd]
      simp

theorem vdr_ignore (P : PTable) (s t : CRMEntity) (p : String) :
    validate_domain_range_alignment P s t p .ignore = ⟨none, []⟩ := rfl

theorem vdr_warn_raised_none (P : PTable) (s t : CRMEntity) (p : String) :
    (validate_domain_range_alignment P s t p .warn).raised = none := by
  unfold validate_domain_range_alignment
  rw [if_neg (by simp)]
  cases hp : pyGet P p with
  | none => rfl
  | some info =>
    dsimp only
    split_ifs <;> simp [_handle_violation_typing]

theorem typing_targets_isSome_raise (P : PTable) (entity : CRMEntity)
    (lookup : List (String × CRMEntity)) (p : String) :
    ∀ tids : List String,
      (_typing_targets P entity lookup .raiseSeverity p tids).isSome =
      tids.any (fun tid =>
        match pyGet lookup tid with
        | none => false
        | some target =>
          match pyGet P p with
          | none => false
          | some info =>
            !(_is_class_compatible entity.class_code info.domain) ||
              !(_is_class_compatible target.class_code info.range)) := by
  intro tids
  induction tids with
  | nil => rfl
  | cons tid rest ih =>
    rw [List.any_cons]
    cases hl : pyGet lookup tid with
    | none => simp [_typing_targets, hl, ih]
    | some target =>
      cases hp : pyGet P p with
      | none =>
        simp [_typing_targets, hl, hp, ih, validate_domain_range_alignment]
      | some info =>
        by_cases hdom : _is_class_compatible entity.class_code info.domain <;>
          by_cases hrng : _is_class_compatible target.class_code info.range <;>
            simp [_typing_targets, hl, hp, validate_domain_range_alignment,
              _handle_violation_typing, hdom, hrng, ih]

theorem typingEntityMsg_raise_iff (P : PTable) (e : CRMEntity)
    (lookup : List (String × CRMEntity)) (p : String) :
    (typingEntityMsg P e lookup .raiseSeverity p ≠ []) ↔
      hasTypingViolation P e lookup p = true := by
  unfold typingEntityMsg hasTypingViolation
  have h := typing_targets_isSome_raise P e lookup p (_get_property_target_ids e p)
  cases htt : _typing_targets P e lookup .raiseSeverity p
      (_get_property_target_ids e p) with
  | none =>
    rw [htt] at h
    simp only [Option.isSome_none] at h
    constructor
    · intro hc
      simp at hc
    · intro hv
      rw [← h] at hv
      simp at hv
  | some m =>
    rw [htt] at h
    simp only [Option.isSome_some] at h
    exact ⟨fun _ => h.symm, fun _ => by simp⟩

theorem typing_targets_warn_none (P : PTable) (e : CRMEntity)
    (lookup : List (String × CRMEntity)) (p : String) :
    ∀ tids : List String, _typing_targets P e lookup .warn p tids = none := by
  intro tids
  induction tids with
  | nil => rfl
  | cons tid rest ih =>
    cases hl : pyGet lookup tid with
    | none => simp [_typing_targets, hl, ih]
    | some target =>
      simp [_typing_targets, hl, vdr_warn_raised_none, ih]

theorem typingEntityMsg_warn (P : PTable) (e : CRMEntity)
    (lookup : List (String × CRMEntity)) (p : String) :
    typingEntityMsg P e lookup .warn p = [] := by
  unfold typingEntityMsg
  rw [typing_targets_warn_none]

theorem typing_targets_ignore_none (P : PTable) (e : CRMEntity)
    (lookup : List (String × CRMEntity)) (p : String) :
    ∀ tids : List String, _typing_targets P e lookup .ignore p tids = none := by
  intro tids
  induction tids with
  | nil => rfl
  | cons tid rest ih =>
    cases hl : pyGet lookup tid with
    | none => simp [_typing_targets, hl, ih]
    | some target => simp [_typing_targets, hl, vdr_ignore, ih]

theorem typingEntityMsg_ignore (P : PTable) (e : CRMEntity)
    (lookup : List (String × CRMEntity)) (p : String) :
    typingEntityMsg P e lookup .ignore p = [] := by
  unfold typingEntityMsg
  rw [typing_targets_ignore_none]

theorem batchFold_get_isSome (f : CRMEntity → List String) :
    ∀ (es : List CRMEntity) (acc : List (String × List String)) (ident : String),
      (pyGet (es.foldl (fun results e =>
        if f e = [] then results else pySet results e.id (f e)) acc)
        ident).isSome = true ↔
      ((pyGet acc ident).isSome = true ∨ ∃ e ∈ es, e.id = ident ∧ f e ≠ []) := by
  intro es
  induction es with
  | nil => intro acc ident; simp
  | cons e rest ih =>
    intro acc ident
    rw [List.foldl_cons]
    by_cases hf : f e = []
    · rw [if_pos hf, ih]
      constructor
      · rintro (h | ⟨e', he', hide, hne⟩)
        · exact .inl h
        · exact .inr ⟨e', List.mem_cons.2 (.inr he'), hide, hne⟩
      · rintro (h | ⟨e', he', hide, hne⟩)
        · exact .inl h
        · rcases List.mem_cons.1 he' with h1 | h1
          · subst h1
            exact absurd hf hne
          · exact .inr ⟨e', h1, hide, hne⟩
    · rw [if_neg hf, ih, pyGet_pySet]
      by_cases hid : ident = e.id
      · rw [if_pos hid]
        constructor
        · intro _
          exact .inr ⟨e, List.mem_cons.2 (.inl rfl), hid.symm, hf⟩
        · intro _
          exact .inl (by simp)
      · rw [if_neg hid]
        constructor
        · rintro (h | ⟨e', he', hide, hne⟩)
          · exact .inl h
          · exact .inr ⟨e', List.mem_cons.2 (.inr he'), hide, hne⟩
        · rintro (h | ⟨e', he', hide, hne⟩)
          · exact .inl h
          · rcases List.mem_cons.1 he' with h1 | h1
            · subst h1
              exact absurd hide.symm hid
            · exact .inr ⟨e', h1, hide, hne⟩

theorem batchFold_eq_nil (f : CRMEntity → List String) :
    ∀ (es : List CRMEntity) (acc : List (String × List String)),
      es.foldl (fun results e =>
        if f e = [] then results else pySet results e.id (f e)) acc = [] ↔
      (acc = [] ∧ ∀ e ∈ es, f e = []) := by
  intro es
  induction es with
  | nil => intro acc; simp
  | cons e rest ih =>
    intro acc
    rw [List.foldl_cons]
    by_cases hf : f e = []
    · rw [if_pos hf, ih]
      simp [hf]
    · rw [if_neg hf, ih]
      constructor
      · rintro ⟨h1, _⟩
        exact absurd h1 (pySet_ne_nil _ _ _)
      · rintro ⟨_, h2⟩
        exact absurd (h2 e (List.mem_cons.2 (.inl rfl))) hf

/-! ## Claim theorems: batch validation -/

/-- C8 counterexample: an E22 entity holding 2 values for a "0..1"
property is a genuine violation (the warn-severity check emits its
warning), yet `validate_batch_quantifiers` at severity warn returns the
empty mapping — the claim's "empty exactly when the batch contains no
violations" fails at severity warn, because `warnings.warn` does not
raise and the collector only records raised exceptions. -/
theorem c8_batch_validation_counterexample :
    hasQuantViolation c8Table c8Entity "P2" = true ∧
    (enforce_quantifier c8Table c8Entity "P2"
      (_get_property_values c8Entity "P2") .warn).warnings.length = 1 ∧
    validate_batch_quantifiers c8Table c8Domain [c8Entity] .warn = [] :=
  ⟨by decide, by decide, by decide⟩

/-- C8 (amended): at severity raise, both batch variants return a map
whose keys are exactly the identifiers of entities with at least one
violation (entities with zero violations are omitted) and which is empty
exactly when the batch contains no violations; at severity warn and
ignore the returned map is always empty (warn-mode violations are
emitted as warnings, not collected).  The schema's quantifier strings
are assumed well-formed, as the spec requires of the static registry. -/
theorem c8_batch_validation (P : PTable) (D : DomainTable)
    (entities : List CRMEntity)
    (hwf : ∀ pr ∈ P, parseOk pr.2.quantifier = true) :
    (validate_batch_quantifiers P D entities .warn = [] ∧
     validate_batch_quantifiers P D entities .ignore = [] ∧
     validate_batch_typing P D entities .warn = [] ∧
     validate_batch_typing P D entities .ignore = []) ∧
    (∀ ident : String,
      (pyGet (validate_batch_quantifiers P D entities .raiseSeverity)
        ident).isSome = true ↔
      ∃ e ∈ entities, e.id = ident ∧
        ∃ p ∈ applicableProps D e, hasQuantViolation P e p = true) ∧
    (validate_batch_quantifiers P D entities .raiseSeverity = [] ↔
      ∀ e ∈ entities, ∀ p ∈ applicableProps D e,
        hasQuantViolation P e p = false) ∧
    (∀ ident : String,
      (pyGet (validate_batch_typing P D entities .raiseSeverity)
        ident).isSome = true ↔
      ∃ e ∈ entities, e.id = ident ∧
        ∃ p ∈ applicableProps D e,
          hasTypingViolation P e (entityLookup entities) p = true) ∧
    (validate_batch_typing P D entities .raiseSeverity = [] ↔
      ∀ e ∈ entities, ∀ p ∈ applicableProps D e,
        hasTypingViolation P e (entityLookup entities) p = false) := by
  have hqmsg : ∀ e : CRMEntity,
      (validate_entity_quantifiers P D e .raiseSeverity ≠ []) ↔
      ∃ p ∈ applicableProps D e, hasQuantViolation P e p = true := by
    intro e
    constructor
    · intro hne
      rw [validate_entity_quantifiers_eq, Ne, List.flatMap_eq_nil_iff] at hne
      push_neg at hne
      obtain ⟨p, hp, hne⟩ := hne
      exact ⟨p, hp, (quantEntityMsg_raise_iff P e p hwf).1 hne⟩
    · rintro ⟨p, hp, hviol⟩
      rw [validate_entity_quantifiers_eq, Ne, List.flatMap_eq_nil_iff]
      push_neg
      exact ⟨p, hp, (quantEntityMsg_raise_iff P e p hwf).2 hviol⟩
  have htmsg : ∀ e : CRMEntity,
      (validate_entity_typing P D e (entityLookup entities) .raiseSeverity ≠ []) ↔
      ∃ p ∈ applicableProps D e,
        hasTypingViolation P e (entityLookup entities) p = true := by
    intro e
    constructor
    · intro hne
      rw [validate_entity_typing_eq, Ne, List.flatMap_eq_nil_iff] at hne
      push_neg at hne
      obtain ⟨p, hp, hne⟩ := hne
      exact ⟨p, hp, (typingEntityMsg_raise_iff P e _ p).1 hne⟩
    · rintro ⟨p, hp, hviol⟩
      rw [validate_entity_typing_eq, Ne, List.flatMap_eq_nil_iff]
      push_neg
      exact ⟨p, hp, (typingEntityMsg_raise_iff P e _ p).2 hviol⟩
  refine ⟨⟨?_, ?_, ?_, ?_⟩, ?_, ?_, ?_, ?_⟩
  · exact (batchFold_eq_nil (fun e => validate_entity_quantifiers P D e .warn)
      entities []).2 ⟨rfl, fun e _ => by
        rw [validate_entity_quantifiers_eq, List.flatMap_eq_nil_iff]
        exact fun p _ => quantEntityMsg_warn P e p hwf⟩
  · exact (batchFold_eq_nil (fun e => validate_entity_quantifiers P D e .ignore)
      entities []).2 ⟨rfl, fun e _ => by
        rw [validate_entity_quantifiers_eq, List.flatMap_eq_nil_iff]
        exact fun p _ => quantEntityMsg_ignore P e p⟩
  · exact (batchFold_eq_nil
      (fun e => validate_entity_typing P D e (entityLookup entities) .warn)
      entities []).2 ⟨rfl, fun e _ => by
        rw [validate_entity_typing_eq, List.flatMap_eq_nil_iff]
        exact fun p _ => typingEntityMsg_warn P e _ p⟩
  · exact (batchFold_eq_nil
      (fun e => validate_entity_typing P D e (entityLookup entities) .ignore)
      entities []).2 ⟨rfl, fun e _ => by
        rw [validate_entity_typing_eq, List.flatMap_eq_nil_iff]
        exact fun p _ => typingEntityMsg_ignore P e _ p⟩
  · intro ident
    have h := batchFold_get_isSome
      (fun e => validate_entity_quantifiers P D e .raiseSeverity)
      entities [] ident
    rw [show (pyGet ([] : List (String × List String)) ident).isSome = false
      from rfl] at h
    simp only [Bool.false_eq_true, false_or] at h
    refine h.trans ?_
    constructor
    · rintro ⟨e, he, hid, hne⟩
      exact ⟨e, he, hid, (hqmsg e).1 hne⟩
    · rintro ⟨e, he, hid, hviol⟩
      exact ⟨e, he, hid, (hqmsg e).2 hviol⟩
  · have h := batchFold_eq_nil
      (fun e => validate_entity_quantifiers P D e .raiseSeverity) entities []
    refine h.trans ?_
    constructor
    · rintro ⟨_, hall⟩ e he p hp
      cases hq : hasQuantViolation P e p
      · rfl
      · exact absurd (hall e he) ((hqmsg e).2 ⟨p, hp, hq⟩)
    · intro hall
      refine ⟨rfl, fun e he => ?_⟩
      by_contra hne
      obtain ⟨p, hp, hviol⟩ := (hqmsg e).1 hne
      rw [hall e he p hp] at hviol
      exact absurd hviol (by simp)
  · intro ident
    have h := batchFold_get_isSome
      (fun e => validate_entity_typing P D e (entityLookup entities)
        .raiseSeverity) entities [] ident
    rw [show (pyGet ([] : List (String × List String)) ident).isSome = false
      from rfl] at h
    simp only [Bool.false_eq_true, false_or] at h
    refine h.trans ?_
    constructor
    · rintro ⟨e, he, hid, hne⟩
      exact ⟨e, he, hid, (htmsg e).1 hne⟩
    · rintro ⟨e, he, hid, hviol⟩
      exact ⟨e, he, hid, (htmsg e).2 hviol⟩
  · have h := batchFold_eq_nil
      (fun e => validate_entity_typing P D e (entityLookup entities)
        .raiseSeverity) entities []
    refine h.trans ?_
    constructor
    · rintro ⟨_, hall⟩ e he p hp
      cases hq : hasTypingViolation P e (entityLookup entities) p
      · rfl
      · exact absurd (hall e he) ((htmsg e).2 ⟨p, hp, hq⟩)
    · intro hall
      refine ⟨rfl, fun e he => ?_⟩
      by_contra hne
      obtain ⟨p, hp, hviol⟩ := (htmsg e).1 hne
      rw [hall e he p hp] at hviol
      exact absurd hviol (by simp)

/-- C8 witness: the amended claim at a concrete violating batch — the
warn map is empty while the raise map holds the violating entity's id. -/
theorem c8_batch_validation_witness :
    validate_batch_quantifiers c8Table c8Domain [c8Entity] .warn = [] ∧
    (pyGet (validate_batch_quantifiers c8Table c8Domain [c8Entity]
      .raiseSeverity) "x1").isSome = true := by
  have h := c8_batch_validation c8Table c8Domain [c8Entity] (by decide)
  exact ⟨h.1.1, (h.2.1 "x1").2 ⟨c8Entity, by simp, rfl, "P2", by decide, by decide⟩⟩

end InfoExtract
